import Mathlib

/-!
Verification development for the aws-lambda-twilio-webhook repository.

The Python sources under `src/twiliowebhook/api/` are shallowly embedded as
executable Lean definitions: the HTTP-shaped Lambda event is a structure, the
handlers are total functions from an explicit environment (parameter store
contents, the external HMAC validator, the phone-number formatter) and an
event to a result value, and Python exceptions are modelled as explicit error
constructors.  Machine integers do not occur in the embedded code paths;
all strings are Lean `String`s (sequences of Unicode scalar values, matching
Python 3 `str`).
-/

/-! ## Constants (`constants.py`) -/

def SYSTEM_NAME : String := "twh"

def ENV_TYPE : String := "dev"

def BIRTHDATE_DIGIT_LENGTH : Nat := 8

def CONTENT_TYPE_XML : String := "application/xml"

def CONTENT_TYPE_JSON : String := "application/json"

def TWILIO_SIGNATURE_HEADER : String := "X-Twilio-Signature"

def DTMF_VOICE_ASSISTANT : String := "1"

def DTMF_OPERATOR_TRANSFER : String := "2"

def HEALTH_ENDPOINT : String := "/health"

def TRANSFER_CALL_ENDPOINT : String := "/transfer-call"

def PROCESS_BIRTHDATE_PATH : String := "/process-birthdate"

def CONFIRM_BIRTHDATE_PATH : String := "/confirm-birthdate"

def HTTPS_SCHEME : String := "https://"

def URL_QUERY_SEPARATOR : String := "?"

def FORM_PARAM_DIGITS : String := "Digits"

def FORM_PARAM_FROM : String := "From"

def ERROR_DIGITS_NOT_FOUND : String := "Digits not found in the request body"

def ERROR_BIRTHDATE_DIGITS_NOT_FOUND : String :=
  "Birth date digits not found in the request"

def ERROR_CALL_NUMBER_NOT_FOUND : String := "Call number not found in the request body"

def ERROR_MISSING_TWILIO_SIGNATURE : String := "Missing X-Twilio-Signature header"

def ERROR_INVALID_TWILIO_SIGNATURE : String := "Invalid Twilio request signature"

/-- `TWIML_DIR` in `constants.py` is an absolute path built from `__file__`;
only its string identity matters to the handlers, so it is modelled as a fixed
relative prefix. -/
def TWIML_DIR_PATH : String := "twiml"

def twimlPath (stem : String) : String := TWIML_DIR_PATH ++ "/" ++ stem ++ ".twiml.xml"

def CONNECT_TWIML_FILE_PATH : String := twimlPath "connect"

def DIAL_TWIML_FILE_PATH : String := twimlPath "dial"

def GATHER_TWIML_FILE_PATH : String := twimlPath "gather"

def HANGUP_TWIML_FILE_PATH : String := twimlPath "hangup"

def BIRTHDATE_TWIML_FILE_PATH : String := twimlPath "birthdate"

/-- Modelled from the spec: `main.py` imports this constant from `.constants`,
but the `constants.py` under `src/` does not define it.  The spec lists the
template logical names (sect. 6): `birthdate-confirmation` among them, so the
path follows the naming convention of the other template path constants. -/
def BIRTHDATE_CONFIRMATION_TWIML_FILE_PATH : String := twimlPath "birthdate-confirmation"

/-- Modelled from the spec: missing from `constants.py` under `src/`
(see `BIRTHDATE_CONFIRMATION_TWIML_FILE_PATH`); spec template name
`birthdate-confirmed`. -/
def BIRTHDATE_CONFIRMED_TWIML_FILE_PATH : String := twimlPath "birthdate-confirmed"

/-- Modelled from the spec: missing from `constants.py` under `src/`;
spec template name `birthdate-retry`. -/
def BIRTHDATE_RETRY_TWIML_FILE_PATH : String := twimlPath "birthdate-retry"

/-- Modelled from the spec: missing from `constants.py` under `src/`;
spec template name `birthdate-invalid-input`. -/
def BIRTHDATE_INVALID_INPUT_TWIML_FILE_PATH : String := twimlPath "birthdate-invalid-input"

/-! ## The inbound event

`LambdaFunctionUrlEvent` exposes the query parameters and headers as
string-to-string mappings, the decoded (url-encoded form) body, the request
path and the domain name.  The mappings are modelled as association lists in
transport-delivery order with unique keys, which is exactly what a Python
`dict` preserves. -/

structure LambdaFunctionUrlEvent where
  queryStringParameters : List (String × String)
  headers : List (String × String)
  decodedBody : String
  path : String
  domainName : String

/-- `dict.get(k)`: the value at the first (unique) matching key. -/
def assocGet (l : List (String × String)) (k : String) : Option String :=
  (l.find? (fun p => p.1 == k)).map (fun p => p.2)

/-- Python truthiness of an optional string (`if not x:` is taken for `none`
and for the empty string). -/
def optTruthy : Option String → Bool
  | none => false
  | some s => !(s == "")

/-! ## URL decoding (`urllib.parse`) -/

def hexVal (c : Char) : Option Nat :=
  if '0' ≤ c ∧ c ≤ '9' then some (c.toNat - 48)
  else if 'a' ≤ c ∧ c ≤ 'f' then some (c.toNat - 87)
  else if 'A' ≤ c ∧ c ≤ 'F' then some (c.toNat - 55)
  else none

/-- Percent-decoding.  `%xx` escapes of single bytes are decoded exactly as
Python does for ASCII; multi-byte UTF-8 escape sequences are mapped byte by
byte to code points instead of being reassembled (no theorem below exercises
a multi-byte escape). -/
def percentDecode : List Char → List Char
  | [] => []
  | c :: rest =>
    if c == '%' then
      match rest with
      | a :: b :: rest' =>
        (match hexVal a, hexVal b with
         | some ha, some hb => Char.ofNat (16 * ha + hb) :: percentDecode rest'
         | _, _ => c :: percentDecode (a :: b :: rest'))
      | [a] => c :: percentDecode [a]
      | [] => [c]
    else c :: percentDecode rest

/-- `urllib.parse.unquote`: percent-decoding, no plus handling. -/
def pyUnquote (s : String) : String := String.mk (percentDecode s.toList)

/-- `urllib.parse.unquote_plus`: plus-to-space, then percent-decoding. -/
def pyUnquotePlus (s : String) : String :=
  pyUnquote (String.mk (s.toList.map (fun c => if c == '+' then ' ' else c)))

/-- `str.split(sep, 1)` at a single character: the part before the first
occurrence and the part after it, or `none` when the character is absent. -/
def splitFirstChar (cs : List Char) (sep : Char) : Option (List Char × List Char) :=
  match cs.span (fun c => !(c == sep)) with
  | (_, []) => none
  | (pre, _ :: post) => some (pre, post)

/-- `str.split(sep)` at a single character (always at least one segment,
empty segments kept). -/
def splitOnChar (cs : List Char) (sep : Char) : List (List Char) :=
  match cs with
  | [] => [[]]
  | c :: rest =>
    let r := splitOnChar rest sep
    if c == sep then [] :: r
    else (c :: r.headD []) :: r.tail

/-- `urllib.parse.parse_qsl(qs, keep_blank_values=True)`: split on `&`, skip
empty segments, split each segment at the first `=` (a segment without `=`
gets a blank value), and `unquote_plus` both sides.  Duplicate keys and blank
values are all kept, in order. -/
def parse_qsl_kb (qs : String) : List (String × String) :=
  (splitOnChar qs.toList '&').filterMap fun nv =>
    if nv.isEmpty then none
    else match splitFirstChar nv '=' with
      | some (n, v) => some (pyUnquotePlus (String.mk n), pyUnquotePlus (String.mk v))
      | none => some (pyUnquotePlus (String.mk nv), "")

/-- One step of Python `dict` construction from a key/value pair: replace the
value at an existing key in place, otherwise append.  (Also the semantics of
`xml.etree` `Element.set`.) -/
def pyDictInsert (l : List (String × String)) (kv : String × String) :
    List (String × String) :=
  match l with
  | [] => [kv]
  | p :: rest =>
    if p.1 == kv.1 then (p.1, kv.2) :: rest
    else p :: pyDictInsert rest kv

/-- `dict(pairs)`: fold the pairs left to right; a later value for the same
key overwrites the earlier one (last-value-wins), first-insertion key order. -/
def pyDict (ps : List (String × String)) : List (String × String) :=
  ps.foldl pyDictInsert []

/-- `str.join` (Python `sep.join(xs)`). -/
def pyJoin (sep : String) : List String → String
  | [] => ""
  | x :: xs => xs.foldl (fun acc y => acc ++ sep ++ y) x

/-! ## Signature verification (`twilio.py`) -/

/-- The canonical externally visible URL reconstructed by
`validate_http_twilio_signature` (`twilio.py` lines 38-46): fixed https
scheme, event domain name, event path, and a `?`-prefixed `k=v` join of the
query parameters in delivered order, empty when there are none. -/
def canonicalUri (ev : LambdaFunctionUrlEvent) : String :=
  let queryString :=
    if ev.queryStringParameters.isEmpty then ""
    else URL_QUERY_SEPARATOR ++
      pyJoin "&" (ev.queryStringParameters.map (fun p => p.1 ++ "=" ++ p.2))
  HTTPS_SCHEME ++ ev.domainName ++ ev.path ++ queryString

/-- The form-parameter mapping handed to the verification library
(`twilio.py` line 49): `dict(parse_qsl(decoded_body, keep_blank_values=True))`. -/
def twilioVerifiedParams (decodedBody : String) : List (String × String) :=
  pyDict (parse_qsl_kb decodedBody)

/-- The two error kinds of `validate_http_twilio_signature`:
`missingSignature` models the 400-class `BadRequestError` with
`ERROR_MISSING_TWILIO_SIGNATURE`, `invalidSignature` the 401-class
`UnauthorizedError` with `ERROR_INVALID_TWILIO_SIGNATURE`. -/
inductive TwilioSigError where
  | missingSignature
  | invalidSignature
deriving DecidableEq, Repr

/-- `validate_http_twilio_signature` (`twilio.py`).  The HMAC computation of
the external `RequestValidator` is abstracted as the oracle `hmacOk`, taking
the auth token, the reconstructed URI, the form-parameter mapping and the
supplied signature. -/
def validate_http_twilio_signature
    (hmacOk : String → String → List (String × String) → String → Bool)
    (token : String) (ev : LambdaFunctionUrlEvent) : Except TwilioSigError Unit :=
  let uri := canonicalUri ev
  let params := twilioVerifiedParams ev.decodedBody
  let signature := assocGet ev.headers TWILIO_SIGNATURE_HEADER
  if optTruthy signature = false then .error .missingSignature
  else if hmacOk token uri params (signature.getD "") then .ok ()
  else .error .invalidSignature

/-! ## XML model (`xml.py` and `xml.etree.ElementTree`)

An element has a tag, an attribute mapping, text and children.  The path
expressions used by the handlers are the `./A/B` child-traversal subset with
an optional `[@name='X']` attribute predicate; `find` returns the first match
in document order (depth-first over matching children).  In-place `set` and
text mutation are modelled by rebuilding the tree at the first matching
element. -/

inductive Xml where
  | elem (tag : String) (attrs : List (String × String)) (text : String)
      (children : List Xml)

def Xml.tag : Xml → String
  | .elem t _ _ _ => t

def Xml.attrs : Xml → List (String × String)
  | .elem _ a _ _ => a

def Xml.text : Xml → String
  | .elem _ _ tx _ => tx

def Xml.children : Xml → List Xml
  | .elem _ _ _ cs => cs

def Xml.getAttr (x : Xml) (k : String) : Option String := assocGet x.attrs k

/-- `Element.set(k, v)`: replace-or-append in the attribute mapping. -/
def Xml.setAttr : Xml → String → String → Xml
  | .elem t a tx cs, k, v => .elem t (pyDictInsert a (k, v)) tx cs

/-- `element.text = v`. -/
def Xml.setText : Xml → String → Xml
  | .elem t a _ cs, tx => .elem t a tx cs

/-- One step of a path expression: a tag, optionally refined by an
`[@attr='value']` predicate. -/
structure PathSeg where
  tag : String
  attrEq : Option (String × String)

def segMatches (s : PathSeg) (x : Xml) : Bool :=
  x.tag == s.tag &&
    (match s.attrEq with
     | none => true
     | some av => x.getAttr av.1 == some av.2)

def singleQuoteChar : Char := Char.ofNat 39

/-- Parse one `Tag` or `Tag[@attr='value']` step. -/
def parseSeg (s : String) : PathSeg :=
  match splitFirstChar s.toList '[' with
  | none => { tag := s, attrEq := none }
  | some (tagCs, rest) =>
    match rest with
    | '@' :: rest' =>
      (match splitFirstChar rest' '=' with
       | some (attrCs, rest2) =>
         (match rest2 with
          | q :: rest3 =>
            if q == singleQuoteChar then
              { tag := String.mk tagCs,
                attrEq := some (String.mk attrCs,
                  String.mk (rest3.takeWhile (fun c => !(c == singleQuoteChar)))) }
            else { tag := s, attrEq := none }
          | _ => { tag := s, attrEq := none })
       | none => { tag := s, attrEq := none })
    | _ => { tag := s, attrEq := none }

/-- Parse a `./A/B[@x='y']` path into its steps. -/
def xpathSegsOf (p : String) : List PathSeg :=
  (splitOnChar p.toList '/').filterMap (fun seg =>
    if seg.isEmpty || seg == ['.'] then none else some (parseSeg (String.mk seg)))

/-- The first `some` produced along a list. -/
def firstSome (f : α → Option β) : List α → Option β
  | [] => none
  | a :: as =>
    match f a with
    | some b => some b
    | none => firstSome f as

/-- Replace the first element on which `f` succeeds. -/
def updateFirstSome (f : α → Option α) : List α → Option (List α)
  | [] => none
  | a :: as =>
    match f a with
    | some a' => some (a' :: as)
    | none => (updateFirstSome f as).map (fun as' => a :: as')

/-- First match of a segment path under `x`, in `find`'s depth-first
document order (recursion is structural on the path, so the definition
evaluates in the kernel). -/
def xmlFindSegs : List PathSeg → Xml → Option Xml
  | [], x => some x
  | s :: rest, x =>
    firstSome (fun c => if segMatches s c then xmlFindSegs rest c else none)
      x.children

/-- Rebuild the tree with `f` applied at the first match of the segment path
(the functional rendering of find-then-mutate-in-place). -/
def xmlUpdateSegs : List PathSeg → (Xml → Xml) → Xml → Option Xml
  | [], f, x => some (f x)
  | s :: rest, f, x =>
    match x with
    | .elem t a tx cs =>
      (updateFirstSome
          (fun c => if segMatches s c then xmlUpdateSegs rest f c else none)
          cs).map
        (fun cs' => Xml.elem t a tx cs')

/-- `root.find(path)` for the path subset used by the handlers. -/
def xmlFind (x : Xml) (path : String) : Option Xml :=
  match xpathSegsOf path with
  | [] => some x
  | s :: rest =>
    firstSome (fun c => if segMatches s c then xmlFindSegs rest c else none)
      x.children

/-- Apply `f` at the first element matching `path` under `x`. -/
def xmlUpdateAt (x : Xml) (path : String) (f : Xml → Xml) : Option Xml :=
  match xpathSegsOf path with
  | [] => some (f x)
  | s :: rest =>
    match x with
    | .elem t a tx cs =>
      (updateFirstSome
          (fun c => if segMatches s c then xmlUpdateSegs rest f c else none)
          cs).map
        (fun cs' => Xml.elem t a tx cs')

def elemNotFoundMsg (ns : String) : String :=
  "Element with tag '" ++ ns ++ "' not found in XML tree."

/-- `find_xml_element` (`xml.py`): first match or a `ValueError` message. -/
def find_xml_element (root : Xml) (ns : String) : Except String Xml :=
  match xmlFind root ns with
  | some e => .ok e
  | none => .error (elemNotFoundMsg ns)

/-- `find_xml_element` followed by an in-place mutation of the found element,
rendered functionally: the rebuilt root, or the `ValueError` message when the
path has no match. -/
def mutateAt (root : Xml) (ns : String) (f : Xml → Xml) : Except String Xml :=
  match xmlUpdateAt root ns f with
  | some r => .ok r
  | none => .error (elemNotFoundMsg ns)

/-- `find_xml_element(root, outer)` followed by a find-and-mutate relative to
the found element (`find_xml_element(sub, inner)` + `set`), rebuilt into the
root. -/
def mutateWithin (root : Xml) (outer inner : String) (f : Xml → Xml) :
    Except String Xml :=
  match xmlFind root outer with
  | none => .error (elemNotFoundMsg outer)
  | some sub =>
    match xmlUpdateAt sub inner f with
    | none => .error (elemNotFoundMsg inner)
    | some sub' =>
      match xmlUpdateAt root outer (fun _ => sub') with
      | some r => .ok r
      | none => .error (elemNotFoundMsg outer)

/-! ## The template store

The `twiml/` template files are not under `src/`; the trees below are
modelled from the spec. -/

/-- Modelled from the spec: the `connect` template skeleton — a
`Connect/Stream` with a `From` `Parameter` (mutable points: stream URL,
caller parameter). -/
def connectTemplate : Xml :=
  .elem "Response" [] "" [
    .elem "Connect" [] "" [
      .elem "Stream" [] "" [
        .elem "Parameter" [("name", "From")] "" []]]]

/-- Modelled from the spec: the `dial` template skeleton (mutable point: dial
target text). -/
def dialTemplate : Xml :=
  .elem "Response" [] "" [.elem "Dial" [] "" []]

/-- Modelled from the spec: the `gather` template skeleton (mutable point:
gather action attribute). -/
def gatherTemplate : Xml :=
  .elem "Response" [] "" [.elem "Gather" [] "" [], .elem "Redirect" [] "" []]

/-- Modelled from the spec: the `hangup` template skeleton (no mutable
points). -/
def hangupTemplate : Xml :=
  .elem "Response" [] "" [.elem "Hangup" [] "" []]

/-- Modelled from the spec: the `birthdate` entry template skeleton (mutable
points: gather action attribute, retry redirect text). -/
def birthdateTemplate : Xml :=
  .elem "Response" [] "" [
    .elem "Say" [] "Enter the year, month, and day of your birth date." [],
    .elem "Gather" [] "" [],
    .elem "Redirect" [] "" []]

/-- Modelled from the spec: the `birthdate-confirmation` template skeleton
(mutable points: say text, gather action attribute, redirect text). -/
def birthdateConfirmationTemplate : Xml :=
  .elem "Response" [] "" [
    .elem "Say" [] "" [],
    .elem "Gather" [] "" [],
    .elem "Redirect" [] "" []]

/-- Modelled from the spec: the `birthdate-confirmed` template skeleton
(mutable point: say text). -/
def birthdateConfirmedTemplate : Xml :=
  .elem "Response" [] "" [.elem "Say" [] "" []]

/-- Modelled from the spec: the `birthdate-retry` template skeleton (mutable
point: redirect text). -/
def birthdateRetryTemplate : Xml :=
  .elem "Response" [] "" [.elem "Say" [] "" [], .elem "Redirect" [] "" []]

/-- Modelled from the spec: the `birthdate-invalid-input` template skeleton
(mutable points: gather action attribute, redirect text). -/
def birthdateInvalidInputTemplate : Xml :=
  .elem "Response" [] "" [
    .elem "Say" [] "" [],
    .elem "Gather" [] "" [],
    .elem "Redirect" [] "" []]

/-- Modelled from the spec: the template store directory contents — the nine
logical template names of spec sect. 6 mapped to their skeletons. -/
def twimlStore : List (String × Xml) := [
  ("connect", connectTemplate),
  ("dial", dialTemplate),
  ("gather", gatherTemplate),
  ("hangup", hangupTemplate),
  ("birthdate", birthdateTemplate),
  ("birthdate-confirmation", birthdateConfirmationTemplate),
  ("birthdate-confirmed", birthdateConfirmedTemplate),
  ("birthdate-retry", birthdateRetryTemplate),
  ("birthdate-invalid-input", birthdateInvalidInputTemplate)]

/-- `parse_xml_and_extract_root` (`xml.py`): load a template by file path;
a missing or unparsable file is a `ValueError`. -/
def parse_xml_and_extract_root (path : String) : Except String Xml :=
  match twimlStore.find? (fun p => twimlPath p.1 == path) with
  | some p => .ok p.2
  | none => .error ("Failed to parse XML file: " ++ path)

/-- `(TWIML_DIR / f"{stem}.twiml.xml").exists()` over the modelled store. -/
def twimlFileExists (path : String) : Bool :=
  (twimlStore.find? (fun p => twimlPath p.1 == path)).isSome

/-! ## Shared helpers of `main.py` -/

/-- `urlparse` restricted to what the handlers consume: the network location
(authority) and the path of an absolute `scheme://host/path` URL, query and
fragment stripped.  URLs with userinfo or a second `://` are outside the
inputs this repository handles. -/
def splitScheme : List Char → Option (List Char × List Char)
  | [] => none
  | c :: rest =>
    if c == ':' then
      match rest with
      | '/' :: '/' :: rest' => some ([], rest')
      | _ => (splitScheme rest).map (fun p => (c :: p.1, p.2))
    else (splitScheme rest).map (fun p => (c :: p.1, p.2))

def urlSplit (u : String) : String × String :=
  match splitScheme u.toList with
  | some (_, rest) =>
      let netloc := rest.takeWhile (fun c => !(c == '/') && !(c == '?') && !(c == '#'))
      let remainder := rest.drop netloc.length
      let path := remainder.takeWhile (fun c => !(c == '?') && !(c == '#'))
      (String.mk netloc, String.mk path)
  | none => ("", String.mk (u.toList.takeWhile (fun c => !(c == '?') && !(c == '#'))))

def urlNetloc (u : String) : String := (urlSplit u).1

def urlPath (u : String) : String := (urlSplit u).2

/-- Python `s[a:b]` for `0 ≤ a ≤ b`: the characters from index `a` up to
(excluding) index `b`, truncated at the end of the string. -/
def pySlice (s : String) (a b : Nat) : String :=
  String.mk ((s.toList.drop a).take (b - a))

/-- The complete table of code-point ranges Python `str.isdigit` accepts:
every character whose Unicode `Numeric_Type` is `Decimal` or `Digit`
(81 inclusive ranges, 788 code points, enumerated from CPython 3.11 over
the whole code space).  ASCII `0`-`9` is the first range; the rest cover
the non-ASCII decimal digits (Arabic-Indic, Bengali, Thai, fullwidth, ...)
and the digit-typed characters (superscripts, subscripts, circled digits,
mathematical alphanumeric digits, ...). -/
def pyDigitRanges : List (Nat × Nat) :=
  [(48, 57), (178, 179), (185, 185), (1632, 1641), (1776, 1785), 
   (1984, 1993), (2406, 2415), (2534, 2543), (2662, 2671), (2790, 2799), 
   (2918, 2927), (3046, 3055), (3174, 3183), (3302, 3311), (3430, 3439), 
   (3558, 3567), (3664, 3673), (3792, 3801), (3872, 3881), (4160, 4169), 
   (4240, 4249), (4969, 4977), (6112, 6121), (6160, 6169), (6470, 6479), 
   (6608, 6618), (6784, 6793), (6800, 6809), (6992, 7001), (7088, 7097), 
   (7232, 7241), (7248, 7257), (8304, 8304), (8308, 8313), (8320, 8329), 
   (9312, 9320), (9332, 9340), (9352, 9360), (9450, 9450), (9461, 9469), 
   (9471, 9471), (10102, 10110), (10112, 10120), (10122, 10130), 
   (42528, 42537), (43216, 43225), (43264, 43273), (43472, 43481), 
   (43504, 43513), (43600, 43609), (44016, 44025), (65296, 65305), 
   (66720, 66729), (68160, 68163), (68912, 68921), (69216, 69224), 
   (69714, 69722), (69734, 69743), (69872, 69881), (69942, 69951), 
   (70096, 70105), (70384, 70393), (70736, 70745), (70864, 70873), 
   (71248, 71257), (71360, 71369), (71472, 71481), (71904, 71913), 
   (72016, 72025), (72784, 72793), (73040, 73049), (73120, 73129), 
   (92768, 92777), (92864, 92873), (93008, 93017), (120782, 120831), 
   (123200, 123209), (123632, 123641), (125264, 125273), (127232, 127242), 
   (130032, 130041)]

/-- Python `str.isdigit` on one character: membership in one of the
`Numeric_Type` `Decimal`/`Digit` ranges. -/
def pyCharIsDigit (c : Char) : Bool :=
  pyDigitRanges.any (fun r => r.1 ≤ c.toNat && c.toNat ≤ r.2)

/-- Python `str.isdigit`: non-empty and every character a digit. -/
def pyStrIsdigit (s : String) : Bool :=
  !(s == "") && s.toList.all pyCharIsDigit

def isAsciiDigit (c : Char) : Bool := 48 ≤ c.toNat && c.toNat ≤ 57

/-- `_parse_birthdate_digits` result: year/month/day components. -/
structure DateParts where
  year : String
  month : String
  day : String
deriving DecidableEq, Repr

/-- `_parse_birthdate_digits` (`main.py`): positional slices `[:4]`, `[4:6]`,
`[6:8]`. -/
def parse_birthdate_digits (digits : String) : DateParts :=
  { year := pySlice digits 0 4
    month := pySlice digits 4 6
    day := pySlice digits 6 8 }

/-- `_build_webhook_urls` result. -/
structure WebhookUrls where
  fqdn : String
  confirm : String
  birthdateEntry : String

/-- `_build_webhook_urls` (`main.py`). -/
def build_webhook_urls (webhookApiUrl : String) : WebhookUrls :=
  let webhookFqdn := urlNetloc webhookApiUrl
  { fqdn := webhookFqdn
    confirm := HTTPS_SCHEME ++ webhookFqdn ++ "/confirm-digits/birthdate"
    birthdateEntry := HTTPS_SCHEME ++ webhookFqdn ++ "/handle-incoming-call/birthdate" }

/-- The first `From` value in the decoded body, per the loop of
`_fetch_caller_phone_number_from_request`: split on `&`, take pairs with an
`=`, unquote the key, stop at the first key equal to `From`. -/
def findCallerInBody (body : String) : Option String :=
  ((splitOnChar body.toList '&').filterMap (fun kv =>
      match splitFirstChar kv '=' with
      | some (k, v) =>
        if pyUnquote (String.mk k) == FORM_PARAM_FROM then
          some (pyUnquote (String.mk v))
        else none
      | none => none)).head?

/-- `_fetch_caller_phone_number_from_request` (`main.py`): the first `From`
form value when the body is non-empty; a falsy result (absent or blank) is a
`BadRequestError` with `ERROR_CALL_NUMBER_NOT_FOUND`. -/
def fetch_caller_phone_number_from_request (ev : LambdaFunctionUrlEvent) :
    Except String String :=
  let caller := if ev.decodedBody == "" then none else findCallerInBody ev.decodedBody
  match caller with
  | some c => if c == "" then .error ERROR_CALL_NUMBER_NOT_FOUND else .ok c
  | none => .error ERROR_CALL_NUMBER_NOT_FOUND

/-! ## Handler environment

Per invocation a handler retrieves secrets from the parameter store,
optionally validates the Twilio signature through the external
`RequestValidator`, and (for the operator branch) formats a phone number via
the `phonenumbers` library.  These external collaborators are the explicit
environment below. -/

/-- A raised Python exception, as the handlers classify it: `valueError`
models `ValueError` (bad parameter names from the store, parse failures),
`otherExc` every other `Exception`.  `msg` is `str(e)`. -/
inductive PyErr where
  | valueError (msg : String)
  | otherExc (msg : String)

def PyErr.msg : PyErr → String
  | .valueError m => m
  | .otherExc m => m

/-- The decrypted values behind the four parameter-store keys the webhook
handlers request (`retrieve_ssm_parameters` returns a name-to-value mapping;
retrieval is all-or-nothing, so a failing batch is the `Except.error` case of
`Env.ssm`). -/
structure SsmParams where
  authToken : String
  mediaApiUrl : String
  operatorPhoneNumber : String
  webhookApiUrl : String

structure Env where
  ssm : Except PyErr SsmParams
  hmacOk : String → String → List (String × String) → String → Bool
  formatE164 : String → String → Except String String

/-- A handler outcome: a 200 markup response carrying the mutated template
root (the HTTP body is its serialization), or one of the classified errors —
`badRequest` for `BadRequestError` (400), `unauthorized` for
`UnauthorizedError` (401), `internalError` for `InternalServerError` (500),
`unhandled` for an exception escaping the handler uncaught. -/
inductive HandlerResult where
  | ok (root : Xml)
  | badRequest (msg : String)
  | unauthorized (msg : String)
  | internalError (msg : String)
  | unhandled (msg : String)

def HandlerResult.isOk : HandlerResult → Bool
  | .ok _ => true
  | _ => false

/-- The gather element's `action` attribute of a 200 response. -/
def gatherActionOf : HandlerResult → Option String
  | .ok root => (xmlFind root "./Gather").bind (fun g => g.getAttr "action")
  | _ => none

/-- The say element's text of a 200 response. -/
def sayTextOf : HandlerResult → Option String
  | .ok root => (xmlFind root "./Say").map Xml.text
  | _ => none

/-- The redirect element's text of a 200 response. -/
def redirectTextOf : HandlerResult → Option String
  | .ok root => (xmlFind root "./Redirect").map Xml.text
  | _ => none

/-! ## `transfer_call` (`main.py` lines 87-160) -/

def transfer_call (env : Env) (ev : LambdaFunctionUrlEvent) (countryCode : String) :
    HandlerResult :=
  let digits := assocGet ev.queryStringParameters "digits"
  if optTruthy digits = false then .badRequest ERROR_DIGITS_NOT_FOUND
  else
    match env.ssm with
    | .error e => .internalError e.msg
    | .ok ps =>
      match validate_http_twilio_signature env.hmacOk ps.authToken ev with
      | .error .missingSignature => .badRequest ERROR_MISSING_TWILIO_SIGNATURE
      | .error .invalidSignature => .unauthorized ERROR_INVALID_TWILIO_SIGNATURE
      | .ok _ =>
        let d := digits.getD ""
        if d == DTMF_VOICE_ASSISTANT then
          match parse_xml_and_extract_root CONNECT_TWIML_FILE_PATH with
          | .error m => .internalError m
          | .ok root0 =>
            match fetch_caller_phone_number_from_request ev with
            | .error m => .badRequest m
            | .ok caller =>
              match (do
                  let r1 ← mutateAt root0 "./Connect/Stream"
                    (fun s => s.setAttr "url" ps.mediaApiUrl)
                  let r2 ← mutateWithin r1 "./Connect/Stream"
                    "./Parameter[@name='From']" (fun p => p.setAttr "value" caller)
                  pure r2) with
              | .ok root => .ok root
              | .error m => .internalError m
        else if d == DTMF_OPERATOR_TRANSFER then
          match parse_xml_and_extract_root DIAL_TWIML_FILE_PATH with
          | .error m => .internalError m
          | .ok root0 =>
            match find_xml_element root0 "./Dial" with
            | .error m => .internalError m
            | .ok _ =>
              match env.formatE164 ps.operatorPhoneNumber countryCode with
              | .error m => .internalError m
              | .ok num =>
                match mutateAt root0 "./Dial" (fun e => e.setText num) with
                | .ok root => .ok root
                | .error m => .internalError m
        else
          match parse_xml_and_extract_root HANGUP_TWIML_FILE_PATH with
          | .error m => .internalError m
          | .ok root => .ok root

/-! ## `handle_incoming_call` and `_respond_to_call` (`main.py` lines 214-320) -/

/-- The template mutation of `_respond_to_call`: returns the mutated root or
the message of a raised `ValueError`. -/
def respond_to_call_root (twimlFilePath caller mediaApiUrl webhookApiUrl : String) :
    Except String Xml := do
  let root ← parse_xml_and_extract_root twimlFilePath
  if twimlFilePath == CONNECT_TWIML_FILE_PATH then do
    let r1 ← mutateAt root "./Connect/Stream" (fun s => s.setAttr "url" mediaApiUrl)
    let r2 ← mutateAt r1 "./Connect/Stream/Parameter[@name='From']"
      (fun p => p.setAttr "value" caller)
    pure r2
  else if twimlFilePath == GATHER_TWIML_FILE_PATH then do
    let webhookApiFqdn := urlNetloc webhookApiUrl
    let transferApiUrl := HTTPS_SCHEME ++ webhookApiFqdn ++ TRANSFER_CALL_ENDPOINT
    mutateAt root "./Gather" (fun g => g.setAttr "action" transferApiUrl)
  else if twimlFilePath == BIRTHDATE_TWIML_FILE_PATH then do
    let webhookApiFqdn := urlNetloc webhookApiUrl
    let processBirthdateUrl := HTTPS_SCHEME ++ webhookApiFqdn ++ PROCESS_BIRTHDATE_PATH
    let r1 ← mutateAt root "./Gather" (fun g => g.setAttr "action" processBirthdateUrl)
    let currentUrl := urlPath webhookApiUrl
    if currentUrl == "" then do
      let _ ← find_xml_element r1 "./Redirect"
      pure r1
    else
      mutateAt r1 "./Redirect"
        (fun r => r.setText (HTTPS_SCHEME ++ webhookApiFqdn ++ currentUrl))
  else
    pure root

/-- `_respond_to_call` (`main.py`).  It runs in the `else:` clause of the
caller's `try`, so a `ValueError` raised here escapes the handler uncaught. -/
def respond_to_call (twimlFilePath caller mediaApiUrl webhookApiUrl : String) :
    HandlerResult :=
  match respond_to_call_root twimlFilePath caller mediaApiUrl webhookApiUrl with
  | .ok root => .ok root
  | .error m => .unhandled m

def handle_incoming_call (env : Env) (ev : LambdaFunctionUrlEvent)
    (twimlFileStem : String) : HandlerResult :=
  let twimlFile := twimlPath twimlFileStem
  if twimlFileExists twimlFile = false then
    .badRequest ("Invalid TwiML file: " ++ twimlFile)
  else
    match fetch_caller_phone_number_from_request ev with
    | .error m => .badRequest m
    | .ok caller =>
      match env.ssm with
      | .error e => .internalError e.msg
      | .ok ps =>
        match validate_http_twilio_signature env.hmacOk ps.authToken ev with
        | .error .missingSignature => .badRequest ERROR_MISSING_TWILIO_SIGNATURE
        | .error .invalidSignature => .unauthorized ERROR_INVALID_TWILIO_SIGNATURE
        | .ok _ => respond_to_call twimlFile caller ps.mediaApiUrl ps.webhookApiUrl

/-! ## `process_digits` (`main.py` lines 411-500) -/

def invalidBirthdateFormatMsg (digits : String) : String :=
  "Invalid birth date format: " ++ digits ++ ". Expected YYYYMMDD (" ++
    toString BIRTHDATE_DIGIT_LENGTH ++ " digits)."

def invalidTargetMsg (target : String) : String :=
  "Invalid target: " ++ target ++ ". Expected 'birthdate'."

def process_digits (env : Env) (ev : LambdaFunctionUrlEvent) (target : String) :
    HandlerResult :=
  if !(target == "birthdate") then .badRequest (invalidTargetMsg target)
  else
    let digits := assocGet ev.queryStringParameters "digits"
    if optTruthy digits = false then .badRequest ERROR_BIRTHDATE_DIGITS_NOT_FOUND
    else
      let d := digits.getD ""
      if !(d.toList.length == BIRTHDATE_DIGIT_LENGTH) || !(pyStrIsdigit d) then
        .badRequest (invalidBirthdateFormatMsg d)
      else
        match env.ssm with
        | .error e => .internalError e.msg
        | .ok ps =>
          match validate_http_twilio_signature env.hmacOk ps.authToken ev with
          | .error .missingSignature => .badRequest ERROR_MISSING_TWILIO_SIGNATURE
          | .error .invalidSignature => .unauthorized ERROR_INVALID_TWILIO_SIGNATURE
          | .ok _ =>
            let dateParts := parse_birthdate_digits d
            let urls := build_webhook_urls ps.webhookApiUrl
            match (do
                let root ← parse_xml_and_extract_root
                  BIRTHDATE_CONFIRMATION_TWIML_FILE_PATH
                let r1 ← mutateAt root "./Say" (fun s => s.setText
                  ("You entered " ++ dateParts.month ++ " " ++ dateParts.day ++
                    ", " ++ dateParts.year ++ " as your birth date. " ++
                    "Press 1 to confirm, or press 2 to re-enter your birth date."))
                let r2 ← mutateAt r1 "./Gather" (fun g => g.setAttr "action"
                  (urls.confirm ++ "?birthdate=" ++ d))
                let r3 ← mutateAt r2 "./Redirect" (fun r => r.setText urls.birthdateEntry)
                pure r3) with
            | .ok root => .ok root
            | .error m => .internalError m

/-! ## `confirm_digits` (`main.py` lines 503-601) -/

def confirm_digits (env : Env) (ev : LambdaFunctionUrlEvent) (target : String) :
    HandlerResult :=
  if !(target == "birthdate") then .badRequest (invalidTargetMsg target)
  else
    let digits := assocGet ev.queryStringParameters "digits"
    let birthdate := assocGet ev.queryStringParameters "birthdate"
    if optTruthy digits = false then
      .badRequest "Confirmation digits not found in the request"
    else if optTruthy birthdate = false then
      .badRequest "Birthdate parameter not found in the request"
    else
      match env.ssm with
      | .error e => .internalError e.msg
      | .ok ps =>
        match validate_http_twilio_signature env.hmacOk ps.authToken ev with
        | .error .missingSignature => .badRequest ERROR_MISSING_TWILIO_SIGNATURE
        | .error .invalidSignature => .unauthorized ERROR_INVALID_TWILIO_SIGNATURE
        | .ok _ =>
          let d := digits.getD ""
          let bd := birthdate.getD ""
          let urls := build_webhook_urls ps.webhookApiUrl
          match (if d == "1" then do
                   let dateParts := parse_birthdate_digits bd
                   let root ← parse_xml_and_extract_root
                     BIRTHDATE_CONFIRMED_TWIML_FILE_PATH
                   mutateAt root "./Say" (fun s => s.setText
                     ("Thank you. We have recorded your birth date as " ++
                       dateParts.month ++ " " ++ dateParts.day ++ ", " ++
                       dateParts.year ++ ". Goodbye!"))
                 else if d == "2" then do
                   let root ← parse_xml_and_extract_root
                     BIRTHDATE_RETRY_TWIML_FILE_PATH
                   mutateAt root "./Redirect" (fun r => r.setText urls.birthdateEntry)
                 else do
                   let root ← parse_xml_and_extract_root
                     BIRTHDATE_INVALID_INPUT_TWIML_FILE_PATH
                   let r1 ← mutateAt root "./Gather" (fun g => g.setAttr "action"
                     (urls.confirm ++ "?birthdate=" ++ bd))
                   mutateAt r1 "./Redirect" (fun r => r.setText urls.birthdateEntry)) with
          | .ok root => .ok root
          | .error m => .internalError m

/-! ## `monitor_call` (`main.py` lines 163-211) -/

/-- The outcome of `client.calls(call_sid).fetch()` against the external
provider: a record, a `TwilioRestException` (carrying its error `code` and
`msg`), a `ValueError`, or any other exception. -/
inductive ProviderFetch where
  | record (body : String)
  | restException (code : Int) (msg : String)
  | valueError (msg : String)
  | otherExc (msg : String)

/-- A JSON-returning handler outcome (the 200 body is a JSON string). -/
inductive JsonResult where
  | ok (body : String)
  | badRequest (msg : String)
  | internalError (msg : String)
deriving DecidableEq, Repr

structure MonitorEnv where
  ssm : Except PyErr Unit
  fetch : String → ProviderFetch

def monitor_call (env : MonitorEnv) (callSid : String) : JsonResult :=
  match env.ssm with
  | .error (.valueError m) => .internalError ("Invalid parameter configuration: " ++ m)
  | .error (.otherExc m) => .internalError ("Failed to fetch call details: " ++ m)
  | .ok _ =>
    match env.fetch callSid with
    | .record body => .ok body
    | .restException code msg =>
      if code == 20404 then .badRequest ("Call not found: " ++ callSid)
      else .internalError ("Twilio API error: " ++ msg)
    | .valueError m => .internalError ("Invalid parameter configuration: " ++ m)
    | .otherExc m => .internalError ("Failed to fetch call details: " ++ m)

/-! ## `batch_monitor_calls` (modelled from the spec)

`batch_monitor_calls` and `_validate_batch_monitor_params` are code of this
repository that is not under `src/` — only the unit tests import them from
the handler module.  The definitions below are modelled from the spec
(sect. 4.3 table row `batch-monitor-calls`, sect. 4.4, sect. 8 scenarios):
`start_date` and `end_date` are required ISO-8601 values with a time
component, else 400; `start ≤ end`, else 400 with the fixed message; `limit`
defaults to 100 and must lie in `[1, 1000]`, else 400 with the fixed message;
validation happens before secrets are fetched or the provider is called. -/

structure PyDatetime where
  year : Nat
  month : Nat
  day : Nat
  hour : Nat
  minute : Nat
  second : Nat
deriving DecidableEq, Repr

/-- Lexicographic order on the six components. -/
def PyDatetime.le (a b : PyDatetime) : Bool :=
  if a.year ≠ b.year then a.year ≤ b.year
  else if a.month ≠ b.month then a.month ≤ b.month
  else if a.day ≠ b.day then a.day ≤ b.day
  else if a.hour ≠ b.hour then a.hour ≤ b.hour
  else if a.minute ≠ b.minute then a.minute ≤ b.minute
  else a.second ≤ b.second

def digitsToNat (cs : List Char) : Nat :=
  cs.foldl (fun acc c => 10 * acc + (c.toNat - 48)) 0

def parseNatAll (cs : List Char) : Option Nat :=
  if cs.isEmpty then none
  else if cs.all isAsciiDigit then some (digitsToNat cs) else none

/-- A decimal integer literal with an optional leading minus sign
(the subset of Python `int(...)` exercised by the limit parameter). -/
def parseIntStr (s : String) : Option Int :=
  match s.toList with
  | [] => none
  | '-' :: rest => (parseNatAll rest).map (fun n => -(n : Int))
  | cs => (parseNatAll cs).map (fun n => (n : Int))

/-- Modelled from the spec: an ISO-8601 datetime with a mandatory time
component — `YYYY-MM-DDTHH:MM:SS` with an optional trailing `Z`.  A
date-only string (no `T` separator) has no time component and is rejected. -/
def parseIsoDatetime (s : String) : Option PyDatetime :=
  match splitOnChar s.toList 'T' with
  | [datePart, timePart] =>
    (match splitOnChar datePart '-' with
     | [ys, ms, ds] =>
       (match parseNatAll ys, parseNatAll ms, parseNatAll ds with
        | some y, some mo, some d =>
          let tp := if timePart.getLast? == some 'Z' then timePart.dropLast else timePart
          (match splitOnChar tp ':' with
           | [hs, mins, ss] =>
             (match parseNatAll hs, parseNatAll mins, parseNatAll ss with
              | some h, some mi, some sec =>
                some { year := y, month := mo, day := d,
                       hour := h, minute := mi, second := sec }
              | _, _, _ => none)
           | _ => none)
        | _, _, _ => none)
     | _ => none)
  | _ => none

structure BatchParams where
  startDate : String
  endDate : String
  startDt : PyDatetime
  endDt : PyDatetime
  limit : Int
  status : Option String
  direction : Option String
  pageToken : Option String

/-- Modelled from the spec: `_validate_batch_monitor_params` — required
dates, ISO-8601-with-time format, ordered range, limit default 100 within
`[1, 1000]`; each violation is a 400-class error with the message the spec
and the repository's tests fix. -/
def validate_batch_monitor_params (qp : List (String × String)) :
    Except String BatchParams :=
  let startDate := assocGet qp "start_date"
  let endDate := assocGet qp "end_date"
  if optTruthy startDate = false ∨ optTruthy endDate = false then
    .error "Both start_date and end_date are required parameters"
  else
    let sd := startDate.getD ""
    let ed := endDate.getD ""
    match parseIsoDatetime sd, parseIsoDatetime ed with
    | some sdt, some edt =>
      if PyDatetime.le sdt edt = false then
        .error "start_date must be before or equal to end_date"
      else
        match parseIntStr ((assocGet qp "limit").getD "100") with
        | none => .error "Invalid date format or parameter configuration"
        | some l =>
          if l < 1 ∨ 1000 < l then .error "Limit must be between 1 and 1000"
          else .ok { startDate := sd, endDate := ed, startDt := sdt, endDt := edt,
                     limit := l, status := assocGet qp "status",
                     direction := assocGet qp "direction",
                     pageToken := assocGet qp "page_token" }
    | _, _ => .error "Invalid date format"

/-- The external collaborators of `batch_monitor_calls`: the secret fetch and
the provider's page listing (returning the serialized JSON body). -/
structure BatchEnv where
  ssm : Except PyErr Unit
  page : BatchParams → ProviderFetch

/-- Modelled from the spec: `batch_monitor_calls` — validate the query
parameters, then fetch secrets and call the provider, classifying errors as
`monitor_call` does. -/
def batch_monitor_calls (env : BatchEnv) (qp : List (String × String)) : JsonResult :=
  match validate_batch_monitor_params qp with
  | .error m => .badRequest m
  | .ok p =>
    match env.ssm with
    | .error (.valueError m) =>
      .internalError ("Invalid parameter configuration: " ++ m)
    | .error (.otherExc m) => .internalError ("Failed to fetch call details: " ++ m)
    | .ok _ =>
      match env.page p with
      | .record body => .ok body
      | .restException _ msg => .internalError ("Twilio API error: " ++ msg)
      | .valueError m => .internalError ("Invalid parameter configuration: " ++ m)
      | .otherExc m => .internalError ("Failed to fetch call details: " ++ m)

/-! ## Derived helpers used by the theorems -/

/-- The value at the LAST occurrence of a key in a pair list. -/
def lastAssoc (l : List (String × String)) (k : String) : Option String :=
  match l with
  | [] => none
  | p :: rest =>
    match lastAssoc rest k with
    | some v => some v
    | none => if p.1 == k then some p.2 else none

/-- The query-parameter pairs a transport would deliver for a URL: the part
after the first `?`, parsed as url-encoded form pairs. -/
def urlQueryPairs (u : String) : List (String × String) :=
  match splitFirstChar u.toList '?' with
  | some (_, q) => parse_qsl_kb (String.mk q)
  | none => []

/-- The registered route path of `process_digits` (`@app.post` on
`/process-digits/<target>`) at a concrete target. -/
def registeredProcessDigitsPath (target : String) : String :=
  "/process-digits/" ++ target

/-! ## Association-list lemmas for the Python `dict` semantics -/

theorem assocGet_cons (p : String × String) (l : List (String × String)) (k : String) :
    assocGet (p :: l) k = if p.1 == k then some p.2 else assocGet l k := by
  simp only [assocGet, List.find?_cons]
  cases hp : (p.1 == k) <;> simp

theorem assocGet_pyDictInsert (l : List (String × String)) (kv : String × String)
    (k : String) :
    assocGet (pyDictInsert l kv) k =
      if kv.1 == k then some kv.2 else assocGet l k := by
  induction l with
  | nil =>
    rw [pyDictInsert, assocGet_cons]
  | cons p rest ih =>
    obtain ⟨a, b⟩ := p
    rw [pyDictInsert]
    dsimp only
    by_cases hins : a = kv.1
    · have hb : (a == kv.1) = true := by simp [hins]
      rw [if_pos hb, assocGet_cons, assocGet_cons]
      dsimp only
      by_cases hak : a = k
      · have h1 : (a == k) = true := by simp [hak]
        have h2 : (kv.1 == k) = true := by simp [← hins, hak]
        rw [h1, h2]
        simp
      · have h1 : (a == k) = false := by simp [hak]
        have h3 : (kv.1 == k) = false := by
          have hne : ¬(kv.1 = k) := fun e => hak (by rw [hins, e])
          simp [hne]
        rw [h1, h3]
        simp
    · have hb : (a == kv.1) = false := by simp [hins]
      rw [if_neg (by simp [hb]), assocGet_cons, ih]
      dsimp only
      by_cases hak : a = k
      · have h1 : (a == k) = true := by simp [hak]
        have h3 : (kv.1 == k) = false := by
          have hne : ¬(kv.1 = k) := fun e => hins (by rw [hak, e])
          simp [hne]
        rw [h1, h3]
        simp only [Bool.false_eq_true, if_false, if_pos rfl]
        rw [assocGet_cons]
        dsimp only
        rw [h1]
        simp
      · have h1 : (a == k) = false := by simp [hak]
        rw [h1]
        rw [show assocGet ((a, b) :: rest) k =
          if (a == k) = true then some b else assocGet rest k from by
            rw [assocGet_cons]]
        rw [h1]
        cases hkk : (kv.1 == k) <;> simp

theorem assocGet_foldl_pyDictInsert (ps : List (String × String))
    (acc : List (String × String)) (k : String) :
    assocGet (ps.foldl pyDictInsert acc) k =
      match lastAssoc ps k with
      | some v => some v
      | none => assocGet acc k := by
  induction ps generalizing acc with
  | nil => simp [lastAssoc]
  | cons p rest ih =>
    simp only [List.foldl_cons, lastAssoc]
    rw [ih]
    cases hl : lastAssoc rest k with
    | some v => simp
    | none =>
      simp only
      rw [assocGet_pyDictInsert]
      cases hp : (p.1 == k) <;> simp

/-- The mapping `dict(pairs)` builds assigns every key its last value. -/
theorem assocGet_pyDict (ps : List (String × String)) (k : String) :
    assocGet (pyDict ps) k = lastAssoc ps k := by
  unfold pyDict
  rw [assocGet_foldl_pyDictInsert]
  cases h : lastAssoc ps k <;> simp [assocGet]

/-- C2, as stated, is false on the code: `twilio.py` line 49 wraps
`parse_qsl` in `dict(...)`, so for the body `a=1&a=2` the parsed pair
`(a, 1)` is found by the parser but does not survive into the verified
parameter mapping — duplicate keys are not preserved. -/
theorem C2_counterexample :
    parse_qsl_kb "a=1&a=2" = [("a", "1"), ("a", "2")] ∧
    twilioVerifiedParams "a=1&a=2" = [("a", "2")] ∧
    ("a", "1") ∈ parse_qsl_kb "a=1&a=2" ∧
    ("a", "1") ∉ twilioVerifiedParams "a=1&a=2" := by
  refine ⟨by decide, by decide, by decide, by decide⟩

/-- C2 (amended): signature verification parses the decoded body with blank
values kept and then collapses the pairs into a Python `dict`, where for
every key the LAST value in the body wins (earlier duplicate pairs do not
contribute); blank values are kept through the collapse. -/
theorem C2_theorem :
    (∀ body k, assocGet (twilioVerifiedParams body) k = lastAssoc (parse_qsl_kb body) k) ∧
    twilioVerifiedParams "From=%2B1&To=" = [("From", "+1"), ("To", "")] := by
  exact ⟨fun body k => assocGet_pyDict (parse_qsl_kb body) k, by decide⟩

/-- C4: signature verification with an absent (or blank) signature header
fails with the missing-signature kind — never the invalid-signature kind —
for every body, query and HMAC oracle (so no HMAC is consulted), while a
present-but-mismatching signature fails with the distinct invalid-signature
kind. -/
theorem C4_theorem :
    (∀ (f g : String → String → List (String × String) → String → Bool) token ev,
      optTruthy (assocGet ev.headers TWILIO_SIGNATURE_HEADER) = false →
      validate_http_twilio_signature f token ev = .error .missingSignature ∧
      validate_http_twilio_signature f token ev =
        validate_http_twilio_signature g token ev) ∧
    (∀ (f : String → String → List (String × String) → String → Bool) token ev s,
      assocGet ev.headers TWILIO_SIGNATURE_HEADER = some s → ¬(s = "") →
      f token (canonicalUri ev) (twilioVerifiedParams ev.decodedBody) s = false →
      validate_http_twilio_signature f token ev = .error .invalidSignature) := by
  constructor
  · intro f g token ev h
    unfold validate_http_twilio_signature
    rw [if_pos h, if_pos h]
    exact ⟨rfl, rfl⟩
  · intro f token ev s hs hne hf
    unfold validate_http_twilio_signature
    rw [hs]
    have ht : optTruthy (some s) = true := by simp [optTruthy, hne]
    rw [if_neg (by simp [ht])]
    simp [hf]

def c4EventNoSig : LambdaFunctionUrlEvent :=
  { queryStringParameters := [("digits", "1")], headers := [],
    decodedBody := "From=%2B15551234567", path := "/transfer-call",
    domainName := "h.example.com" }

def c4EventBadSig : LambdaFunctionUrlEvent :=
  { queryStringParameters := [("digits", "1")],
    headers := [("X-Twilio-Signature", "bad")],
    decodedBody := "From=%2B15551234567", path := "/transfer-call",
    domainName := "h.example.com" }

theorem C4_witness :
    validate_http_twilio_signature (fun _ _ _ _ => true) "tok" c4EventNoSig =
      .error .missingSignature ∧
    validate_http_twilio_signature (fun _ _ _ _ => false) "tok" c4EventBadSig =
      .error .invalidSignature := by
  exact ⟨(C4_theorem.1 (fun _ _ _ _ => true) (fun _ _ _ _ => false) "tok"
      c4EventNoSig rfl).1,
    C4_theorem.2 (fun _ _ _ _ => false) "tok" c4EventBadSig "bad" rfl
      (by decide) rfl⟩

/-! ## C7: the canonical URL -/

/-- Written from the spec's words (sect. 4.1 step 1), independently of the
source transliteration in `canonicalUri`: `k=v` pairs joined by `&` in the
delivered order. -/
def specQueryJoin : List (String × String) → String
  | [] => ""
  | [p] => p.1 ++ "=" ++ p.2
  | p :: q :: rest => p.1 ++ "=" ++ p.2 ++ "&" ++ specQueryJoin (q :: rest)

/-- Written from the spec's words (sect. 4.1 step 1): fixed secure-HTTP
scheme, authority = event domain name, path = event path, `?`-prefixed query
join in delivered order, omitted entirely when there are no query
parameters. -/
def canonicalUriSpec (ev : LambdaFunctionUrlEvent) : String :=
  match ev.queryStringParameters with
  | [] => "https://" ++ ev.domainName ++ ev.path
  | qs => "https://" ++ ev.domainName ++ ev.path ++ "?" ++ specQueryJoin qs

theorem pyJoin_foldl_shift (sep : String) (xs : List String) (a b : String) :
    xs.foldl (fun acc y => acc ++ sep ++ y) (a ++ b) =
      a ++ xs.foldl (fun acc y => acc ++ sep ++ y) b := by
  induction xs generalizing b with
  | nil => rfl
  | cons y ys ih =>
    simp only [List.foldl_cons]
    have h : a ++ b ++ sep ++ y = a ++ (b ++ sep ++ y) := by
      simp [String.append_assoc]
    rw [h, ih]

theorem pyJoin_cons_cons (sep x y : String) (ys : List String) :
    pyJoin sep (x :: y :: ys) = x ++ sep ++ pyJoin sep (y :: ys) := by
  show (y :: ys).foldl (fun acc z => acc ++ sep ++ z) x = _
  simp only [List.foldl_cons]
  have h : x ++ sep ++ y = (x ++ sep) ++ y := rfl
  rw [h, pyJoin_foldl_shift]
  rfl

theorem pyJoin_eq_specQueryJoin (l : List (String × String)) :
    pyJoin "&" (l.map (fun p => p.1 ++ "=" ++ p.2)) = specQueryJoin l := by
  induction l with
  | nil => rfl
  | cons p rest ih =>
    cases rest with
    | nil => rfl
    | cons q rest' =>
      simp only [List.map_cons] at ih ⊢
      rw [pyJoin_cons_cons]
      rw [ih]
      rfl

/-- C7: the reconstructed canonical URL is exactly the spec's one — fixed
https scheme, event domain, event path, `?`-prefixed `k=v` pairs joined by
`&` in the delivered order (no re-sorting), omitted entirely when there are
no query parameters. -/
theorem C7_theorem :
    ∀ ev, canonicalUri ev = canonicalUriSpec ev ∧
      (ev.queryStringParameters = [] →
        canonicalUri ev = HTTPS_SCHEME ++ ev.domainName ++ ev.path) := by
  intro ev
  constructor
  · unfold canonicalUri canonicalUriSpec
    cases h : ev.queryStringParameters with
    | nil => simp [HTTPS_SCHEME]
    | cons p rest =>
      simp only [List.isEmpty_cons, Bool.false_eq_true, if_false]
      rw [pyJoin_eq_specQueryJoin]
      simp [URL_QUERY_SEPARATOR, HTTPS_SCHEME, String.append_assoc]
  · intro h
    unfold canonicalUri
    simp [h]

def c7Event : LambdaFunctionUrlEvent :=
  { queryStringParameters := [], headers := [], decodedBody := "",
    path := "/health", domainName := "h.example.com" }

theorem C7_witness :
    canonicalUri c7Event = HTTPS_SCHEME ++ c7Event.domainName ++ c7Event.path := by
  exact (C7_theorem c7Event).2 rfl

/-! ## C1: signature checking versus request-derived precondition checks -/

/-- The response a handler produces when it re-raises a signature-validation
failure. -/
def sigErrorResult : TwilioSigError → HandlerResult
  | .missingSignature => .badRequest ERROR_MISSING_TWILIO_SIGNATURE
  | .invalidSignature => .unauthorized ERROR_INVALID_TWILIO_SIGNATURE

def okSsmParams : SsmParams :=
  { authToken := "tok", mediaApiUrl := "wss://media.example.com",
    operatorPhoneNumber := "+15559876543",
    webhookApiUrl := "https://webhook.example.com/api/v1/webhook" }

/-- Environment whose external HMAC validator accepts every signature. -/
def envSigAccept : Env :=
  { ssm := .ok okSsmParams, hmacOk := fun _ _ _ _ => true,
    formatE164 := fun n _ => .ok n }

/-- Environment whose external HMAC validator rejects every signature. -/
def envSigReject : Env :=
  { ssm := .ok okSsmParams, hmacOk := fun _ _ _ _ => false,
    formatE164 := fun n _ => .ok n }

def c1EventNoDigits : LambdaFunctionUrlEvent :=
  { queryStringParameters := [], headers := [],
    decodedBody := "From=%2B15551234567", path := "/transfer-call",
    domainName := "h.example.com" }

def c1EventDigits : LambdaFunctionUrlEvent :=
  { queryStringParameters := [("digits", "5")], headers := [],
    decodedBody := "From=%2B15551234567", path := "/transfer-call",
    domainName := "h.example.com" }

/-- C1, as stated, is false on the code: two transfer-call requests that both
lack the signature header produce observably different error responses
depending only on the request-derived digit-presence branch — the branch at
`main.py` line 104 runs before `validate_http_twilio_signature` is ever
reached, so it leaks state through response differences on unsigned
requests. -/
theorem C1_counterexample :
    transfer_call envSigReject c1EventNoDigits "US" =
      .badRequest ERROR_DIGITS_NOT_FOUND ∧
    transfer_call envSigReject c1EventDigits "US" =
      .badRequest ERROR_MISSING_TWILIO_SIGNATURE ∧
    assocGet c1EventNoDigits.headers TWILIO_SIGNATURE_HEADER = none ∧
    assocGet c1EventDigits.headers TWILIO_SIGNATURE_HEADER = none ∧
    ¬(ERROR_DIGITS_NOT_FOUND = ERROR_MISSING_TWILIO_SIGNATURE) := by
  refine ⟨rfl, rfl, rfl, rfl, by decide⟩

/-- C1 (amended): in every signature-checked handler the request-derived
precondition checks (digit presence for transfer-call; template-stem
existence and caller-number extraction for handle-incoming-call; target,
digit-presence and digit-format checks for process-digits; target, digits
and birthdate presence for confirm-digits) run BEFORE signature validation
and yield distinct 400-class errors; once those preconditions pass and the
auth token has been retrieved, the signature check decides the outcome
before any DTMF/template branching — a missing signature always yields the
400 missing-signature error and an invalid one the 401 invalid-signature
error. -/
theorem C1_theorem :
    (∀ env ev cc ps e, env.ssm = .ok ps →
      optTruthy (assocGet ev.queryStringParameters "digits") = true →
      validate_http_twilio_signature env.hmacOk ps.authToken ev = .error e →
      transfer_call env ev cc = sigErrorResult e) ∧
    (∀ env ev stem caller ps e, env.ssm = .ok ps →
      twimlFileExists (twimlPath stem) = true →
      fetch_caller_phone_number_from_request ev = .ok caller →
      validate_http_twilio_signature env.hmacOk ps.authToken ev = .error e →
      handle_incoming_call env ev stem = sigErrorResult e) ∧
    (∀ env ev d ps e, env.ssm = .ok ps →
      assocGet ev.queryStringParameters "digits" = some d →
      d.toList.length = BIRTHDATE_DIGIT_LENGTH →
      d.toList.all pyCharIsDigit = true →
      validate_http_twilio_signature env.hmacOk ps.authToken ev = .error e →
      process_digits env ev "birthdate" = sigErrorResult e) ∧
    (∀ env ev cd bd ps e, env.ssm = .ok ps →
      assocGet ev.queryStringParameters "digits" = some cd → ¬(cd = "") →
      assocGet ev.queryStringParameters "birthdate" = some bd → ¬(bd = "") →
      validate_http_twilio_signature env.hmacOk ps.authToken ev = .error e →
      confirm_digits env ev "birthdate" = sigErrorResult e) := by
  refine ⟨?_, ?_, ?_, ?_⟩
  · intro env ev cc ps e hssm hdig hsig
    simp only [transfer_call, hdig, hssm, hsig]
    cases e <;> simp [sigErrorResult]
  · intro env ev stem caller ps e hssm hex hcall hsig
    simp only [handle_incoming_call, hex, hcall, hssm, hsig]
    cases e <;> simp [sigErrorResult]
  · intro env ev d ps e hssm hq hlen hall hsig
    have hdne : ¬(d = "") := by
      intro h'
      rw [h'] at hlen
      simp [BIRTHDATE_DIGIT_LENGTH] at hlen
    have h1 : optTruthy (some d) = true := by simp [optTruthy, hdne]
    have h2 : (d.toList.length == BIRTHDATE_DIGIT_LENGTH) = true := by
      rw [hlen]
      simp
    have h3 : pyStrIsdigit d = true := by
      unfold pyStrIsdigit
      rw [hall]
      have hf : (d == "") = false := beq_eq_false_iff_ne.mpr hdne
      rw [hf]
      rfl
    have hcond : (!(d.toList.length == BIRTHDATE_DIGIT_LENGTH) || !(pyStrIsdigit d)) =
        false := by
      rw [h2, h3]
      rfl
    simp only [process_digits, hq, Option.getD_some, h1, hcond, hssm, hsig,
      Bool.false_eq_true, if_false, Bool.true_eq_false]
    cases e <;> simp [sigErrorResult]
  · intro env ev cd bd ps e hssm hcd hcdne hbd hbdne hsig
    have h1 : optTruthy (some cd) = true := by simp [optTruthy, hcdne]
    have h2 : optTruthy (some bd) = true := by simp [optTruthy, hbdne]
    simp only [confirm_digits, hcd, hbd, h1, h2, hssm, hsig]
    cases e <;> simp [sigErrorResult]

def c1EventHic : LambdaFunctionUrlEvent :=
  { queryStringParameters := [], headers := [],
    decodedBody := "From=%2B15551234567", path := "/handle-incoming-call/birthdate",
    domainName := "h.example.com" }

def c1EventPd : LambdaFunctionUrlEvent :=
  { queryStringParameters := [("digits", "19900115")], headers := [],
    decodedBody := "", path := "/process-digits/birthdate",
    domainName := "h.example.com" }

def c1EventCd : LambdaFunctionUrlEvent :=
  { queryStringParameters := [("digits", "1"), ("birthdate", "19900115")],
    headers := [], decodedBody := "", path := "/confirm-digits/birthdate",
    domainName := "h.example.com" }

theorem C1_witness :
    transfer_call envSigReject c1EventDigits "US" =
      .badRequest ERROR_MISSING_TWILIO_SIGNATURE ∧
    handle_incoming_call envSigReject c1EventHic "birthdate" =
      .badRequest ERROR_MISSING_TWILIO_SIGNATURE ∧
    process_digits envSigReject c1EventPd "birthdate" =
      .badRequest ERROR_MISSING_TWILIO_SIGNATURE ∧
    confirm_digits envSigReject c1EventCd "birthdate" =
      .badRequest ERROR_MISSING_TWILIO_SIGNATURE := by
  refine ⟨?_, ?_, ?_, ?_⟩
  · exact C1_theorem.1 envSigReject c1EventDigits "US" okSsmParams
      .missingSignature rfl rfl rfl
  · exact C1_theorem.2.1 envSigReject c1EventHic "birthdate" "+15551234567"
      okSsmParams .missingSignature rfl rfl rfl rfl
  · exact C1_theorem.2.2.1 envSigReject c1EventPd "19900115" okSsmParams
      .missingSignature rfl rfl (by decide) (by decide) rfl
  · exact C1_theorem.2.2.2 envSigReject c1EventCd "1" "19900115" okSsmParams
      .missingSignature rfl rfl (by decide) rfl (by decide) rfl

/-! ## C3: digit-format validation of `process_digits` -/

theorem pyCharIsDigit_of_ascii (c : Char) (h : isAsciiDigit c = true) :
    pyCharIsDigit c = true := by
  unfold isAsciiDigit at h
  simp only [Bool.and_eq_true, decide_eq_true_eq] at h
  unfold pyCharIsDigit
  rw [List.any_eq_true]
  exact ⟨(48, 57), by decide, by simp [h.1, h.2]⟩

theorem pyStrIsdigit_of_ascii (d : String) (hne : ¬(d = ""))
    (h : d.toList.all isAsciiDigit = true) : pyStrIsdigit d = true := by
  unfold pyStrIsdigit
  have h2 : d.toList.all pyCharIsDigit = true := by
    rw [List.all_eq_true] at h ⊢
    exact fun c hc => pyCharIsDigit_of_ascii c (h c hc)
  rw [h2]
  have hf : (d == "") = false := beq_eq_false_iff_ne.mpr hne
  rw [hf]
  rfl

/-- The mutated birthdate-confirmation root `process_digits` produces on an
accepted digit string: say text built from the month/day/year slices, gather
action pointing at the confirm endpoint with the digits embedded, redirect
pointing at the birthdate-entry endpoint. -/
def expectedConfirmationRoot (fqdn d : String) : Xml :=
  .elem "Response" [] "" [
    .elem "Say" []
      ("You entered " ++ pySlice d 4 6 ++ " " ++ pySlice d 6 8 ++ ", " ++
        pySlice d 0 4 ++ " as your birth date. " ++
        "Press 1 to confirm, or press 2 to re-enter your birth date.") [],
    .elem "Gather"
      [("action",
        HTTPS_SCHEME ++ fqdn ++ "/confirm-digits/birthdate" ++ "?birthdate=" ++ d)]
      "" [],
    .elem "Redirect" [] (HTTPS_SCHEME ++ fqdn ++ "/handle-incoming-call/birthdate") []]

/-- On an accepted (8 ASCII digits) input with valid signature and retrieved
secrets, `process_digits` succeeds with the expected mutated template. -/
theorem process_digits_success (env : Env) (ev : LambdaFunctionUrlEvent)
    (ps : SsmParams) (d : String) (hssm : env.ssm = .ok ps)
    (hsig : validate_http_twilio_signature env.hmacOk ps.authToken ev = .ok ())
    (hq : assocGet ev.queryStringParameters "digits" = some d)
    (hlen : d.toList.length = BIRTHDATE_DIGIT_LENGTH)
    (hascii : d.toList.all isAsciiDigit = true) :
    process_digits env ev "birthdate" =
      .ok (expectedConfirmationRoot (urlNetloc ps.webhookApiUrl) d) := by
  have hdne : ¬(d = "") := by
    intro h'
    rw [h'] at hlen
    simp [BIRTHDATE_DIGIT_LENGTH] at hlen
  have h1 : optTruthy (some d) = true := by simp [optTruthy, hdne]
  have h2 : (d.toList.length == BIRTHDATE_DIGIT_LENGTH) = true := by
    rw [hlen]
    simp
  have h3 : pyStrIsdigit d = true := pyStrIsdigit_of_ascii d hdne hascii
  have hcond : (!(d.toList.length == BIRTHDATE_DIGIT_LENGTH) || !(pyStrIsdigit d)) =
      false := by
    rw [h2, h3]
    rfl
  simp only [process_digits, hq, Option.getD_some, h1, hcond, hssm, hsig,
    Bool.false_eq_true, if_false, Bool.true_eq_false]
  rfl

def c3FullwidthDigits : String := "１２３４５６７８"

def c3ThaiDigits : String := "๐๑๒๓๔๕๖๗"

def c3Event : LambdaFunctionUrlEvent :=
  { queryStringParameters := [("digits", c3FullwidthDigits)],
    headers := [("X-Twilio-Signature", "sig")], decodedBody := "",
    path := "/process-digits/birthdate", domainName := "h.example.com" }

def c3ThaiEvent : LambdaFunctionUrlEvent :=
  { queryStringParameters := [("digits", c3ThaiDigits)],
    headers := [("X-Twilio-Signature", "sig")], decodedBody := "",
    path := "/process-digits/birthdate", domainName := "h.example.com" }

/-- C3, as stated, is false on the code: a string of eight FULLWIDTH digits
(U+FF11 .. U+FF18) — and likewise one of eight THAI digits
(U+0E50 .. U+0E57) — contains no ASCII decimal digit, yet `process_digits`
accepts it — Python `str.isdigit` is true for non-ASCII Unicode digits, so
the `len(digits) != 8 or not digits.isdigit()` check at `main.py` line 435
does not reject it and the handler returns a 200 markup response instead of
the claimed 400 invalid-format error. -/
theorem C3_counterexample :
    (process_digits envSigAccept c3Event "birthdate").isOk = true ∧
    c3FullwidthDigits.toList.all isAsciiDigit = false ∧
    c3FullwidthDigits.toList.length = 8 ∧
    (process_digits envSigAccept c3ThaiEvent "birthdate").isOk = true ∧
    c3ThaiDigits.toList.all isAsciiDigit = false ∧
    c3ThaiDigits.toList.length = 8 := by
  refine ⟨rfl, by decide, by decide, rfl, by decide, by decide⟩

/-- C3 (amended): `process_digits` rejects with the 400 invalid-format error
— before any external call, hence for every environment — exactly when the
digit string's length differs from 8 or some character fails Python
`str.isdigit`; that predicate also accepts non-ASCII Unicode digits, so
"contains a non-ASCII digit" does not imply rejection.  Every string of
exactly 8 ASCII decimal digits is accepted and split deterministically into
year `[0:4]`, month `[4:6]`, day `[6:8]`. -/
theorem C3_theorem :
    (∀ env ev d, assocGet ev.queryStringParameters "digits" = some d → ¬(d = "") →
      (¬(d.toList.length = BIRTHDATE_DIGIT_LENGTH) ∨
        ¬(d.toList.all pyCharIsDigit = true)) →
      process_digits env ev "birthdate" = .badRequest (invalidBirthdateFormatMsg d)) ∧
    (∀ env ev ps d, env.ssm = .ok ps →
      validate_http_twilio_signature env.hmacOk ps.authToken ev = .ok () →
      assocGet ev.queryStringParameters "digits" = some d →
      d.toList.length = BIRTHDATE_DIGIT_LENGTH →
      d.toList.all isAsciiDigit = true →
      process_digits env ev "birthdate" =
        .ok (expectedConfirmationRoot (urlNetloc ps.webhookApiUrl) d)) := by
  constructor
  · intro env ev d hq hdne hbad
    have h1 : optTruthy (some d) = true := by simp [optTruthy, hdne]
    have hcond : (!(d.toList.length == BIRTHDATE_DIGIT_LENGTH) ||
        !(pyStrIsdigit d)) = true := by
      rcases hbad with h | h
      · have : (d.toList.length == BIRTHDATE_DIGIT_LENGTH) = false :=
          beq_eq_false_iff_ne.mpr h
        rw [this]
        rfl
      · have hall : d.toList.all pyCharIsDigit = false := by
          cases hv : d.toList.all pyCharIsDigit
          · rfl
          · exact absurd hv h
        have : pyStrIsdigit d = false := by
          unfold pyStrIsdigit
          rw [hall]
          simp
        rw [this]
        simp
    simp only [process_digits, hq, Option.getD_some, h1, hcond, if_true,
      Bool.true_eq_false, if_false]
    rfl
  · intro env ev ps d hssm hsig hq hlen hascii
    exact process_digits_success env ev ps d hssm hsig hq hlen hascii

def c3BadEvent : LambdaFunctionUrlEvent :=
  { queryStringParameters := [("digits", "1990011")],
    headers := [("X-Twilio-Signature", "sig")], decodedBody := "",
    path := "/process-digits/birthdate", domainName := "h.example.com" }

def c3GoodEvent : LambdaFunctionUrlEvent :=
  { queryStringParameters := [("digits", "19900115")],
    headers := [("X-Twilio-Signature", "sig")], decodedBody := "",
    path := "/process-digits/birthdate", domainName := "h.example.com" }

theorem C3_witness :
    process_digits envSigAccept c3BadEvent "birthdate" =
      .badRequest (invalidBirthdateFormatMsg "1990011") ∧
    process_digits envSigAccept c3GoodEvent "birthdate" =
      .ok (expectedConfirmationRoot (urlNetloc okSsmParams.webhookApiUrl)
        "19900115") := by
  constructor
  · exact C3_theorem.1 envSigAccept c3BadEvent "1990011" rfl (by decide)
      (Or.inl (by decide))
  · exact C3_theorem.2 envSigAccept c3GoodEvent okSsmParams "19900115" rfl rfl
      rfl (by decide) (by decide)

/-! ## C10: `confirm_digits` and the unvalidated birthdate parameter -/

/-- The mutated birthdate-confirmed root `confirm_digits` produces on
confirmation digit `1`. -/
def expectedConfirmedRoot (bd : String) : Xml :=
  .elem "Response" [] "" [
    .elem "Say" []
      ("Thank you. We have recorded your birth date as " ++ pySlice bd 4 6 ++
        " " ++ pySlice bd 6 8 ++ ", " ++ pySlice bd 0 4 ++ ". Goodbye!") []]

/-- With valid signature and secrets, confirmation digit `1` finalizes with
the say text built from positional slices of the round-tripped birthdate
parameter — whatever its length or content. -/
theorem confirm_digits_one (env : Env) (ev : LambdaFunctionUrlEvent)
    (ps : SsmParams) (bd : String) (hssm : env.ssm = .ok ps)
    (hsig : validate_http_twilio_signature env.hmacOk ps.authToken ev = .ok ())
    (hcd : assocGet ev.queryStringParameters "digits" = some "1")
    (hbd : assocGet ev.queryStringParameters "birthdate" = some bd)
    (hbdne : ¬(bd = "")) :
    confirm_digits env ev "birthdate" = .ok (expectedConfirmedRoot bd) := by
  have h1 : optTruthy (some "1") = true := rfl
  have h2 : optTruthy (some bd) = true := by simp [optTruthy, hbdne]
  simp only [confirm_digits, hcd, hbd, Option.getD_some, h1, h2, hssm, hsig,
    Bool.true_eq_false, if_false]
  rfl

/-- C10: `confirm_digits` never re-validates the birthdate parameter's
format — for every non-empty birthdate string (any length, any characters),
with the target `birthdate`, a non-empty digits parameter, retrieved secrets
and a valid signature, the handler returns a success markup response (never
a client error for the birthdate value); and on digits `1` it slices the
string positionally into year `[0:4]`, month `[4:6]`, day `[6:8]` (short
strings yield truncated or empty parts). -/
theorem C10_theorem :
    ∀ env ev ps cd bd, env.ssm = .ok ps →
      validate_http_twilio_signature env.hmacOk ps.authToken ev = .ok () →
      assocGet ev.queryStringParameters "digits" = some cd → ¬(cd = "") →
      assocGet ev.queryStringParameters "birthdate" = some bd → ¬(bd = "") →
      (confirm_digits env ev "birthdate").isOk = true ∧
      (cd = "1" →
        confirm_digits env ev "birthdate" = .ok (expectedConfirmedRoot bd)) := by
  intro env ev ps cd bd hssm hsig hcd hcdne hbd hbdne
  have ht1 : optTruthy (some cd) = true := by simp [optTruthy, hcdne]
  have ht2 : optTruthy (some bd) = true := by simp [optTruthy, hbdne]
  constructor
  · by_cases h1 : cd = "1"
    · subst h1
      rw [confirm_digits_one env ev ps bd hssm hsig hcd hbd hbdne]
      rfl
    · have hb1 : (cd == "1") = false := beq_eq_false_iff_ne.mpr h1
      by_cases h2 : cd = "2"
      · subst h2
        simp only [confirm_digits, hcd, hbd, Option.getD_some, ht1, ht2, hssm,
          hsig, Bool.true_eq_false, if_false]
        rfl
      · have hb2 : (cd == "2") = false := beq_eq_false_iff_ne.mpr h2
        simp only [confirm_digits, hcd, hbd, Option.getD_some, ht1, ht2, hssm,
          hsig, Bool.true_eq_false, if_false, hb1, hb2, Bool.false_eq_true]
        rfl
  · intro h1
    subst h1
    exact confirm_digits_one env ev ps bd hssm hsig hcd hbd hbdne

def c10Event : LambdaFunctionUrlEvent :=
  { queryStringParameters := [("digits", "1"), ("birthdate", "123")],
    headers := [("X-Twilio-Signature", "sig")], decodedBody := "",
    path := "/confirm-digits/birthdate", domainName := "h.example.com" }

theorem C10_witness :
    (confirm_digits envSigAccept c10Event "birthdate").isOk = true ∧
    confirm_digits envSigAccept c10Event "birthdate" =
      .ok (expectedConfirmedRoot "123") := by
  refine ⟨(C10_theorem envSigAccept c10Event okSsmParams "1" "123" rfl rfl rfl
      (by decide) rfl (by decide)).1,
    (C10_theorem envSigAccept c10Event okSsmParams "1" "123" rfl rfl rfl
      (by decide) rfl (by decide)).2 rfl⟩

/-! ## C6: the birthdate-entry gather action URL -/

def c6Event : LambdaFunctionUrlEvent :=
  { queryStringParameters := [], headers := [("X-Twilio-Signature", "sig")],
    decodedBody := "From=%2B15551234567",
    path := "/handle-incoming-call/birthdate",
    domainName := "webhook.example.com" }

/-- C6: on the birthdate-entry stem the handler DOES set the retry redirect
to self (the webhook URL has the path `/api/v1/webhook`), but it sets the
gather action to `https://webhook.example.com/process-birthdate` — built
from the constant `PROCESS_BIRTHDATE_PATH = "/process-birthdate"`
(`constants.py` line 42) — which is NOT the registered digit-processing
route `/process-digits/birthdate` (`@app.post("/process-digits/<target>")`,
`main.py` line 411).  The repository's own tests
(`test/api/test_main.py` lines 1070-1082, `test/api/test_birthdate.py` line
73) expect `https://webhook.example.com/process-digits/birthdate`, so the
constant, not the claim, is the slip. -/
theorem C6_theorem :
    gatherActionOf (handle_incoming_call envSigAccept c6Event "birthdate") =
      some ("https://webhook.example.com" ++ PROCESS_BIRTHDATE_PATH) ∧
    redirectTextOf (handle_incoming_call envSigAccept c6Event "birthdate") =
      some "https://webhook.example.com/api/v1/webhook" ∧
    PROCESS_BIRTHDATE_PATH = "/process-birthdate" ∧
    registeredProcessDigitsPath "birthdate" = "/process-digits/birthdate" ∧
    ¬(PROCESS_BIRTHDATE_PATH = registeredProcessDigitsPath "birthdate") := by
  refine ⟨rfl, rfl, rfl, rfl, by decide⟩

/-! ## C8: `monitor_call` error classification -/

theorem C8_theorem :
    ∀ env sid,
      (∀ m, env.ssm = .ok () → env.fetch sid = .restException 20404 m →
        monitor_call env sid = .badRequest ("Call not found: " ++ sid)) ∧
      (∀ c m, env.ssm = .ok () → env.fetch sid = .restException c m →
        ¬(c = 20404) →
        monitor_call env sid = .internalError ("Twilio API error: " ++ m)) ∧
      (∀ m, env.ssm = .error (.valueError m) →
        monitor_call env sid =
          .internalError ("Invalid parameter configuration: " ++ m)) ∧
      (∀ m, env.ssm = .ok () → env.fetch sid = .otherExc m →
        monitor_call env sid =
          .internalError ("Failed to fetch call details: " ++ m)) ∧
      (∀ m, env.ssm = .error (.otherExc m) →
        monitor_call env sid =
          .internalError ("Failed to fetch call details: " ++ m)) ∧
      ((∃ b, monitor_call env sid = .ok b) ∨
        (∃ m, monitor_call env sid = .badRequest m) ∨
        (∃ m, monitor_call env sid = .internalError m)) := by
  intro env sid
  refine ⟨?_, ?_, ?_, ?_, ?_, ?_⟩
  · intro m hssm hf
    simp [monitor_call, hssm, hf]
  · intro c m hssm hf hc
    have hb : (c == 20404) = false := beq_eq_false_iff_ne.mpr hc
    simp [monitor_call, hssm, hf, hb]
  · intro m hssm
    simp [monitor_call, hssm]
  · intro m hssm hf
    simp [monitor_call, hssm, hf]
  · intro m hssm
    simp [monitor_call, hssm]
  · unfold monitor_call
    cases hssm : env.ssm with
    | error e =>
      cases e with
      | valueError m => exact Or.inr (Or.inr ⟨_, rfl⟩)
      | otherExc m => exact Or.inr (Or.inr ⟨_, rfl⟩)
    | ok u =>
      cases hf : env.fetch sid with
      | record b => exact Or.inl ⟨b, rfl⟩
      | restException c m =>
        cases hc : (c == 20404) with
        | true =>
          exact Or.inr (Or.inl ⟨"Call not found: " ++ sid, by simp [hc]⟩)
        | false =>
          exact Or.inr (Or.inr ⟨"Twilio API error: " ++ m, by simp [hc]⟩)
      | valueError m => exact Or.inr (Or.inr ⟨_, rfl⟩)
      | otherExc m => exact Or.inr (Or.inr ⟨_, rfl⟩)

def c8EnvNotFound : MonitorEnv :=
  { ssm := .ok (), fetch := fun _ => .restException 20404 "not found" }

def c8EnvUpstream : MonitorEnv :=
  { ssm := .ok (), fetch := fun _ => .restException 20003 "Unauthorized" }

def c8EnvSsmBad : MonitorEnv :=
  { ssm := .error (.valueError "Invalid parameters: [p]"),
    fetch := fun _ => .record "{}" }

theorem C8_witness :
    monitor_call c8EnvNotFound "CA123" = .badRequest ("Call not found: " ++ "CA123") ∧
    monitor_call c8EnvUpstream "CA123" =
      .internalError ("Twilio API error: " ++ "Unauthorized") ∧
    monitor_call c8EnvSsmBad "CA123" =
      .internalError ("Invalid parameter configuration: " ++
        "Invalid parameters: [p]") := by
  refine ⟨(C8_theorem c8EnvNotFound "CA123").1 "not found" rfl rfl,
    (C8_theorem c8EnvUpstream "CA123").2.1 20003 "Unauthorized" rfl rfl
      (by decide),
    (C8_theorem c8EnvSsmBad "CA123").2.2.1 "Invalid parameters: [p]" rfl⟩

/-! ## C9: `batch_monitor_calls` parameter validation -/

/-- C9: query-parameter validation of the batch listing runs before any
external call (an invalid request yields the same 400 response in every
environment); missing dates, a date without a time component, a reversed
range and an out-of-range limit each yield their fixed 400-class errors, and
a missing limit defaults to 100. -/
theorem C9_theorem :
    ∀ qp,
      (∀ (env env' : BatchEnv) m, validate_batch_monitor_params qp = .error m →
        batch_monitor_calls env qp = .badRequest m ∧
        batch_monitor_calls env qp = batch_monitor_calls env' qp) ∧
      (optTruthy (assocGet qp "start_date") = false ∨
        optTruthy (assocGet qp "end_date") = false →
        validate_batch_monitor_params qp =
          .error "Both start_date and end_date are required parameters") ∧
      (∀ sd ed, assocGet qp "start_date" = some sd → ¬(sd = "") →
        assocGet qp "end_date" = some ed → ¬(ed = "") →
        (parseIsoDatetime sd = none ∨ parseIsoDatetime ed = none) →
        validate_batch_monitor_params qp = .error "Invalid date format") ∧
      (∀ sd ed sdt edt, assocGet qp "start_date" = some sd →
        assocGet qp "end_date" = some ed → ¬(sd = "") → ¬(ed = "") →
        parseIsoDatetime sd = some sdt → parseIsoDatetime ed = some edt →
        PyDatetime.le sdt edt = false →
        validate_batch_monitor_params qp =
          .error "start_date must be before or equal to end_date") ∧
      (∀ sd ed sdt edt l, assocGet qp "start_date" = some sd →
        assocGet qp "end_date" = some ed → ¬(sd = "") → ¬(ed = "") →
        parseIsoDatetime sd = some sdt → parseIsoDatetime ed = some edt →
        PyDatetime.le sdt edt = true →
        parseIntStr ((assocGet qp "limit").getD "100") = some l →
        (l < 1 ∨ 1000 < l) →
        validate_batch_monitor_params qp =
          .error "Limit must be between 1 and 1000") ∧
      (∀ sd ed sdt edt, assocGet qp "start_date" = some sd →
        assocGet qp "end_date" = some ed → ¬(sd = "") → ¬(ed = "") →
        parseIsoDatetime sd = some sdt → parseIsoDatetime ed = some edt →
        PyDatetime.le sdt edt = true →
        assocGet qp "limit" = none →
        ∃ p, validate_batch_monitor_params qp = .ok p ∧ p.limit = 100) := by
  intro qp
  refine ⟨?_, ?_, ?_, ?_, ?_, ?_⟩
  · intro env env' m hval
    unfold batch_monitor_calls
    rw [hval]
    exact ⟨rfl, rfl⟩
  · intro h
    unfold validate_batch_monitor_params
    rw [if_pos h]
  · intro sd ed hsd hsdne hed hedne hparse
    have h1 : optTruthy (some sd) = true := by simp [optTruthy, hsdne]
    have h2 : optTruthy (some ed) = true := by simp [optTruthy, hedne]
    unfold validate_batch_monitor_params
    rw [hsd, hed]
    rw [if_neg (by simp [h1, h2])]
    simp only [Option.getD_some]
    rcases hparse with h | h
    · rw [h]
    · rw [h]
      cases parseIsoDatetime sd <;> rfl

  · intro sd ed sdt edt hsd hed hsdne hedne hps hpe hle
    have h1 : optTruthy (some sd) = true := by simp [optTruthy, hsdne]
    have h2 : optTruthy (some ed) = true := by simp [optTruthy, hedne]
    unfold validate_batch_monitor_params
    rw [hsd, hed]
    rw [if_neg (by simp [h1, h2])]
    simp only [Option.getD_some]
    rw [hps, hpe]
    simp [hle]
  · intro sd ed sdt edt l hsd hed hsdne hedne hps hpe hle hlim hrange
    have h1 : optTruthy (some sd) = true := by simp [optTruthy, hsdne]
    have h2 : optTruthy (some ed) = true := by simp [optTruthy, hedne]
    unfold validate_batch_monitor_params
    rw [hsd, hed]
    rw [if_neg (by simp [h1, h2])]
    simp only [Option.getD_some]
    rw [hps, hpe]
    simp only [hle, Bool.true_eq_false, if_false]
    simp only [hlim]
    rw [if_pos hrange]
  · intro sd ed sdt edt hsd hed hsdne hedne hps hpe hle hlim
    have h1 : optTruthy (some sd) = true := by simp [optTruthy, hsdne]
    have h2 : optTruthy (some ed) = true := by simp [optTruthy, hedne]
    unfold validate_batch_monitor_params
    rw [hsd, hed]
    rw [if_neg (by simp [h1, h2])]
    simp only [Option.getD_some]
    rw [hps, hpe]
    simp only [hle, Bool.true_eq_false, if_false]
    rw [hlim]
    simp only [Option.getD_none]
    rw [show parseIntStr "100" = some 100 from rfl]
    exact ⟨_, rfl, rfl⟩

def c9EnvA : BatchEnv := { ssm := .ok (), page := fun _ => .record "{}" }

def c9EnvB : BatchEnv :=
  { ssm := .error (.valueError "x"), page := fun _ => .otherExc "y" }

def c9QpReversed : List (String × String) :=
  [("start_date", "2024-01-31T23:59:59Z"), ("end_date", "2024-01-01T00:00:00Z")]

def c9QpBigLimit : List (String × String) :=
  [("start_date", "2024-01-01T00:00:00Z"), ("end_date", "2024-01-31T23:59:59Z"),
   ("limit", "1500")]

def c9QpDefault : List (String × String) :=
  [("start_date", "2024-01-01T00:00:00Z"), ("end_date", "2024-01-31T23:59:59Z")]

theorem C9_witness :
    batch_monitor_calls c9EnvA c9QpReversed =
      .badRequest "start_date must be before or equal to end_date" ∧
    batch_monitor_calls c9EnvA c9QpReversed = batch_monitor_calls c9EnvB c9QpReversed ∧
    validate_batch_monitor_params c9QpBigLimit =
      .error "Limit must be between 1 and 1000" ∧
    validate_batch_monitor_params [("start_date", "2024-01-01T00:00:00Z")] =
      .error "Both start_date and end_date are required parameters" ∧
    validate_batch_monitor_params
      [("start_date", "2024-01-01"), ("end_date", "2024-01-31T23:59:59Z")] =
      .error "Invalid date format" ∧
    (∃ p, validate_batch_monitor_params c9QpDefault = .ok p ∧ p.limit = 100) := by
  refine ⟨?_, ?_, ?_, ?_, ?_, ?_⟩
  · exact ((C9_theorem c9QpReversed).1 c9EnvA c9EnvB
      "start_date must be before or equal to end_date" rfl).1
  · exact ((C9_theorem c9QpReversed).1 c9EnvA c9EnvB
      "start_date must be before or equal to end_date" rfl).2
  · exact (C9_theorem c9QpBigLimit).2.2.2.2.1 "2024-01-01T00:00:00Z"
      "2024-01-31T23:59:59Z" _ _ 1500 rfl rfl (by decide) (by decide) rfl rfl
      rfl rfl (by omega)
  · exact (C9_theorem [("start_date", "2024-01-01T00:00:00Z")]).2.1 (Or.inr rfl)
  · exact (C9_theorem
      [("start_date", "2024-01-01"), ("end_date", "2024-01-31T23:59:59Z")]).2.2.1
      "2024-01-01" "2024-01-31T23:59:59Z" rfl (by decide) rfl (by decide)
      (Or.inl rfl)
  · exact (C9_theorem c9QpDefault).2.2.2.2.2 "2024-01-01T00:00:00Z"
      "2024-01-31T23:59:59Z" _ _ rfl rfl (by decide) (by decide) rfl rfl rfl rfl

/-! ## C5: the birthdate round-trip -/

theorem toList_append (a b : String) : (a ++ b).toList = a.toList ++ b.toList := rfl

theorem mk_toList (s : String) : String.mk s.toList = s := rfl

theorem takeWhile_all_append (p : Char → Bool) (l₁ : List Char) (c : Char)
    (l₂ : List Char) (h : l₁.all p = true) (hc : p c = false) :
    (l₁ ++ c :: l₂).takeWhile p = l₁ := by
  induction l₁ with
  | nil => simp [List.takeWhile_cons, hc]
  | cons a as ih =>
    simp only [List.all_cons, Bool.and_eq_true] at h
    simp [List.takeWhile_cons, h.1, ih h.2]

theorem dropWhile_all_append (p : Char → Bool) (l₁ : List Char) (c : Char)
    (l₂ : List Char) (h : l₁.all p = true) (hc : p c = false) :
    (l₁ ++ c :: l₂).dropWhile p = c :: l₂ := by
  induction l₁ with
  | nil => simp [List.dropWhile_cons, hc]
  | cons a as ih =>
    simp only [List.all_cons, Bool.and_eq_true] at h
    simp [List.dropWhile_cons, h.1, ih h.2]

theorem splitFirstChar_append (l₁ l₂ : List Char) (sep : Char)
    (h : l₁.all (fun c => !(c == sep)) = true) :
    splitFirstChar (l₁ ++ sep :: l₂) sep = some (l₁, l₂) := by
  unfold splitFirstChar
  rw [List.span_eq_take_drop]
  rw [takeWhile_all_append _ _ _ _ h (by simp),
    dropWhile_all_append _ _ _ _ h (by simp)]

/-- A character outside a character class is `BEq`-distinct from every
character inside it. -/
theorem asciiDigit_ne_char (c : Char) (h : isAsciiDigit c = true) (x : Char)
    (hx : isAsciiDigit x = false) : (c == x) = false := by
  refine beq_eq_false_iff_ne.mpr ?_
  intro e
  subst e
  rw [h] at hx
  cases hx

theorem percentDecode_no_percent (cs : List Char)
    (h : cs.all (fun c => !(c == '%')) = true) : percentDecode cs = cs := by
  induction cs with
  | nil => rfl
  | cons c rest ih =>
    simp only [List.all_cons, Bool.and_eq_true] at h
    have hc : (c == '%') = false := by
      cases hv : (c == '%')
      · rfl
      · rw [hv] at h
        exact absurd h.1 (by simp)
    rw [percentDecode.eq_def]
    dsimp only
    rw [hc]
    simp only [Bool.false_eq_true, if_false]
    rw [ih h.2]

theorem pyUnquotePlus_digits (cs : List Char) (h : cs.all isAsciiDigit = true) :
    pyUnquotePlus (String.mk cs) = String.mk cs := by
  unfold pyUnquotePlus pyUnquote
  have hmap : cs.map (fun c => if c == '+' then ' ' else c) = cs := by
    rw [List.all_eq_true] at h
    induction cs with
    | nil => rfl
    | cons c rest ih =>
      have hc : (c == '+') = false :=
        asciiDigit_ne_char c (h c (by simp)) '+' (by decide)
      simp only [List.map_cons, hc, Bool.false_eq_true, if_false]
      rw [ih (fun x hx => h x (List.mem_cons_of_mem _ hx))]
  have hpct : cs.all (fun c => !(c == '%')) = true := by
    rw [List.all_eq_true] at h ⊢
    intro c hc
    have := asciiDigit_ne_char c (h c hc) '%' (by decide)
    simp [this]
  show String.mk (percentDecode ((String.mk cs).toList.map _)) = String.mk cs
  rw [show (String.mk cs).toList = cs from rfl, hmap, percentDecode_no_percent cs hpct]

theorem splitOnChar_no_sep (cs : List Char) (sep : Char)
    (h : cs.all (fun c => !(c == sep)) = true) : splitOnChar cs sep = [cs] := by
  induction cs with
  | nil => rfl
  | cons c rest ih =>
    simp only [List.all_cons, Bool.and_eq_true] at h
    have hc : (c == sep) = false := by
      cases hv : (c == sep)
      · rfl
      · rw [hv] at h
        exact absurd h.1 (by simp)
    rw [show splitOnChar (c :: rest) sep =
      (if c == sep then [] :: splitOnChar rest sep
       else (c :: (splitOnChar rest sep).headD []) ::
         (splitOnChar rest sep).tail) from rfl]
    rw [ih h.2, hc]
    rfl

theorem parse_qsl_birthdate_pair (d : String)
    (h : d.toList.all isAsciiDigit = true) :
    parse_qsl_kb (String.mk ("birthdate=".toList ++ d.toList)) =
      [("birthdate", d)] := by
  unfold parse_qsl_kb
  have hd2 : d.toList.all (fun c => !(c == '&')) = true := by
    rw [List.all_eq_true] at h ⊢
    intro c hc
    have := asciiDigit_ne_char c (h c hc) '&' (by decide)
    simp [this]
  have hnoamp : ("birthdate=".toList ++ d.toList).all (fun c => !(c == '&')) =
      true := by
    rw [List.all_append, hd2,
      show ("birthdate=".toList.all (fun c => !(c == '&'))) = true from by decide]
    rfl
  rw [show (String.mk ("birthdate=".toList ++ d.toList)).toList =
    "birthdate=".toList ++ d.toList from rfl]
  rw [splitOnChar_no_sep _ _ hnoamp]
  have hshape : "birthdate=".toList ++ d.toList =
      "birthdate".toList ++ '=' :: d.toList := by
    rw [show "birthdate=".toList = "birthdate".toList ++ ['='] from by decide]
    rw [List.append_assoc]
    rfl
  rw [List.filterMap_cons, List.filterMap_nil]
  rw [hshape]
  have hne : ("birthdate".toList ++ '=' :: d.toList).isEmpty = false := by
    rw [show "birthdate".toList = 'b' :: "irthdate".toList from by decide]
    rfl
  rw [hne]
  simp only [Bool.false_eq_true, if_false]
  rw [splitFirstChar_append "birthdate".toList d.toList '=' (by decide)]
  show [(pyUnquotePlus (String.mk "birthdate".toList),
    pyUnquotePlus (String.mk d.toList))] = [("birthdate", d)]
  rw [pyUnquotePlus_digits d.toList h, mk_toList]
  rfl

theorem urlNetloc_no_query (u : String) :
    (urlNetloc u).toList.all (fun c => !(c == '?')) = true := by
  unfold urlNetloc urlSplit
  cases hs : splitScheme u.toList with
  | none => rfl
  | some p =>
    dsimp only
    rw [List.all_eq_true]
    intro c hc
    have hmem := List.mem_takeWhile_imp
      (p := fun c => !(c == '/') && !(c == '?') && !(c == '#'))
      (l := p.2) (by simpa using hc)
    simp only [Bool.and_eq_true] at hmem
    exact hmem.1.2

theorem urlQueryPairs_confirm_action (fqdn d : String)
    (hfq : fqdn.toList.all (fun c => !(c == '?')) = true)
    (hd : d.toList.all isAsciiDigit = true) :
    urlQueryPairs (HTTPS_SCHEME ++ fqdn ++ "/confirm-digits/birthdate" ++
      "?birthdate=" ++ d) = [("birthdate", d)] := by
  unfold urlQueryPairs
  have hu : (HTTPS_SCHEME ++ fqdn ++ "/confirm-digits/birthdate" ++
      "?birthdate=" ++ d).toList =
      ("https://".toList ++ fqdn.toList ++ "/confirm-digits/birthdate".toList) ++
        '?' :: ("birthdate=".toList ++ d.toList) := by
    rw [toList_append, toList_append, toList_append, toList_append]
    rw [show "?birthdate=".toList = '?' :: "birthdate=".toList from by decide]
    rw [show (HTTPS_SCHEME : String).toList = "https://".toList from rfl]
    simp [List.append_assoc]
  rw [hu]
  have hpre : ("https://".toList ++ fqdn.toList ++
      "/confirm-digits/birthdate".toList).all (fun c => !(c == '?')) = true := by
    rw [List.all_append, List.all_append, hfq,
      show ("https://".toList.all (fun c => !(c == '?'))) = true from by decide,
      show ("/confirm-digits/birthdate".toList.all (fun c => !(c == '?'))) =
        true from by decide]
    rfl
  rw [splitFirstChar_append _ _ _ hpre]
  exact parse_qsl_birthdate_pair d hd

/-- C5: for every accepted 8-digit string, the confirmation prompt embeds
the string verbatim as the `birthdate` query parameter of the gather action
URL; a transport that parses that URL's query back into the next request
hands `confirm_digits` the identical string, and on digits `1` the confirmed
say text is built from slices of the original string. -/
theorem C5_theorem :
    ∀ (env env2 : Env) ev ev2 ps ps2 d,
      env.ssm = .ok ps →
      validate_http_twilio_signature env.hmacOk ps.authToken ev = .ok () →
      assocGet ev.queryStringParameters "digits" = some d →
      d.toList.length = BIRTHDATE_DIGIT_LENGTH →
      d.toList.all isAsciiDigit = true →
      env2.ssm = .ok ps2 →
      validate_http_twilio_signature env2.hmacOk ps2.authToken ev2 = .ok () →
      assocGet ev2.queryStringParameters "digits" = some "1" →
      assocGet ev2.queryStringParameters "birthdate" =
        assocGet (urlQueryPairs
          ((gatherActionOf (process_digits env ev "birthdate")).getD ""))
          "birthdate" →
      gatherActionOf (process_digits env ev "birthdate") =
        some (HTTPS_SCHEME ++ urlNetloc ps.webhookApiUrl ++
          "/confirm-digits/birthdate" ++ "?birthdate=" ++ d) ∧
      assocGet (urlQueryPairs
        ((gatherActionOf (process_digits env ev "birthdate")).getD ""))
        "birthdate" = some d ∧
      confirm_digits env2 ev2 "birthdate" = .ok (expectedConfirmedRoot d) := by
  intro env env2 ev ev2 ps ps2 d hssm hsig hq hlen hascii hssm2 hsig2 hq2 hround
  have hpd := process_digits_success env ev ps d hssm hsig hq hlen hascii
  have hga : gatherActionOf (process_digits env ev "birthdate") =
      some (HTTPS_SCHEME ++ urlNetloc ps.webhookApiUrl ++
        "/confirm-digits/birthdate" ++ "?birthdate=" ++ d) := by
    rw [hpd]
    rfl
  have hex : assocGet (urlQueryPairs
      ((gatherActionOf (process_digits env ev "birthdate")).getD ""))
      "birthdate" = some d := by
    rw [hga]
    rw [show (some (HTTPS_SCHEME ++ urlNetloc ps.webhookApiUrl ++
      "/confirm-digits/birthdate" ++ "?birthdate=" ++ d)).getD "" =
      HTTPS_SCHEME ++ urlNetloc ps.webhookApiUrl ++
      "/confirm-digits/birthdate" ++ "?birthdate=" ++ d from rfl]
    rw [urlQueryPairs_confirm_action (urlNetloc ps.webhookApiUrl) d
      (urlNetloc_no_query ps.webhookApiUrl) hascii]
    rfl
  have hdne : ¬(d = "") := by
    intro h'
    rw [h'] at hlen
    simp [BIRTHDATE_DIGIT_LENGTH] at hlen
  have hbd : assocGet ev2.queryStringParameters "birthdate" = some d := by
    rw [hround, hex]
  exact ⟨hga, hex, confirm_digits_one env2 ev2 ps2 d hssm2 hsig2 hq2 hbd hdne⟩

def c5Event2 : LambdaFunctionUrlEvent :=
  { queryStringParameters := [("digits", "1"), ("birthdate", "19900115")],
    headers := [("X-Twilio-Signature", "sig")], decodedBody := "",
    path := "/confirm-digits/birthdate", domainName := "h.example.com" }

theorem C5_witness :
    gatherActionOf (process_digits envSigAccept c3GoodEvent "birthdate") =
      some (HTTPS_SCHEME ++ urlNetloc okSsmParams.webhookApiUrl ++
        "/confirm-digits/birthdate" ++ "?birthdate=" ++ "19900115") ∧
    assocGet (urlQueryPairs
      ((gatherActionOf (process_digits envSigAccept c3GoodEvent
        "birthdate")).getD "")) "birthdate" = some "19900115" ∧
    confirm_digits envSigAccept c5Event2 "birthdate" =
      .ok (expectedConfirmedRoot "19900115") := by
  exact C5_theorem envSigAccept envSigAccept c3GoodEvent c5Event2 okSsmParams
    okSsmParams "19900115" rfl rfl rfl (by decide) (by decide) rfl rfl rfl rfl
